import Mathlib

/-!
Verification of the persistence service of Pixelle-Video
(`pixelle_video/services/persistence.py`).

The service stores task metadata (an untyped JSON dictionary) and storyboard
records (typed dataclass graph) under one directory per task.  We embed the
on-disk store as an association list from task id to the pair of document
slots, embed Python/JSON values as inductive types, and translate each
operation of `PersistenceService` into a pure Lean function on that state.
-/

namespace PixelleVideo

/-- A `datetime.datetime` value without timezone, as produced by
`datetime.now()` and consumed by `datetime.fromisoformat` in the
persistence service. -/
structure DateTime where
  year : Nat
  month : Nat
  day : Nat
  hour : Nat
  minute : Nat
  second : Nat
  microsecond : Nat
deriving DecidableEq, Repr

/-- Field bounds of a real `datetime` value; Python enforces these at
construction time (the finer day-in-month refinement is not needed by any
theorem below, so we keep the uniform `day ≤ 31` bound). -/
def DateTime.Valid (d : DateTime) : Prop :=
  1 ≤ d.year ∧ d.year ≤ 9999 ∧ 1 ≤ d.month ∧ d.month ≤ 12 ∧ 1 ≤ d.day ∧ d.day ≤ 31 ∧
  d.hour ≤ 23 ∧ d.minute ≤ 59 ∧ d.second ≤ 59 ∧ d.microsecond ≤ 999999

instance (d : DateTime) : Decidable d.Valid := by
  unfold DateTime.Valid
  infer_instance

/-- The decimal digit character for `n % 10`-style values. -/
def digitChar (n : Nat) : Char := Char.ofNat (48 + n)

/-- Numeric value of a decimal digit character. -/
def digitVal (c : Char) : Nat := c.toNat - 48

/-- Whether a character is a decimal digit. -/
def isDigitChar (c : Char) : Bool := 48 ≤ c.toNat && c.toNat ≤ 57

/-- Two-digit zero-padded decimal rendering. -/
def pad2 (n : Nat) : List Char := [digitChar (n / 10 % 10), digitChar (n % 10)]

/-- Four-digit zero-padded decimal rendering. -/
def pad4 (n : Nat) : List Char :=
  [digitChar (n / 1000 % 10), digitChar (n / 100 % 10), digitChar (n / 10 % 10),
   digitChar (n % 10)]

/-- Six-digit zero-padded decimal rendering. -/
def pad6 (n : Nat) : List Char :=
  [digitChar (n / 100000 % 10), digitChar (n / 10000 % 10), digitChar (n / 1000 % 10),
   digitChar (n / 100 % 10), digitChar (n / 10 % 10), digitChar (n % 10)]

/-- `datetime.isoformat()`: `YYYY-MM-DDTHH:MM:SS`, with `.ffffff` appended
exactly when the microsecond field is non-zero. -/
def DateTime.isoformat (d : DateTime) : String :=
  String.mk (pad4 d.year ++ '-' :: pad2 d.month ++ '-' :: pad2 d.day ++ 'T' :: pad2 d.hour
    ++ ':' :: pad2 d.minute ++ ':' :: pad2 d.second
    ++ (if d.microsecond = 0 then [] else '.' :: pad6 d.microsecond))

/-- Numeric value of two digit characters. -/
def val2 (a b : Char) : Nat := digitVal a * 10 + digitVal b

/-- Numeric value of four digit characters. -/
def val4 (a b c d : Char) : Nat :=
  digitVal a * 1000 + digitVal b * 100 + digitVal c * 10 + digitVal d

/-- Numeric value of six digit characters. -/
def val6 (a b c d e f : Char) : Nat :=
  digitVal a * 100000 + digitVal b * 10000 + digitVal c * 1000 + digitVal d * 100 +
    digitVal e * 10 + digitVal f

/-- All characters in the list are decimal digits. -/
def allDigits (l : List Char) : Bool := l.all isDigitChar

/-- Smart constructor applying the `datetime` range validation. -/
def DateTime.mk? (y mo dy h mi s u : Nat) : Option DateTime :=
  if 1 ≤ y ∧ y ≤ 9999 ∧ 1 ≤ mo ∧ mo ≤ 12 ∧ 1 ≤ dy ∧ dy ≤ 31 ∧
      h ≤ 23 ∧ mi ≤ 59 ∧ s ≤ 59 ∧ u ≤ 999999 then
    some ⟨y, mo, dy, h, mi, s, u⟩
  else
    none

/-- `datetime.fromisoformat` restricted to the canonical forms that
`isoformat` emits (`YYYY-MM-DDTHH:MM:SS` with optional `.ffffff`); any other
shape is rejected, which the loaders observe as a raised `ValueError`. -/
def DateTime.fromisoformat (str : String) : Option DateTime :=
  match str.toList with
  | y1 :: y2 :: y3 :: y4 :: c1 :: a1 :: a2 :: c2 :: b1 :: b2 :: c3 :: h1 :: h2 :: c4 ::
      m1 :: m2 :: c5 :: s1 :: s2 :: rest =>
    if c1 = '-' ∧ c2 = '-' ∧ c3 = 'T' ∧ c4 = ':' ∧ c5 = ':' ∧
        allDigits [y1, y2, y3, y4, a1, a2, b1, b2, h1, h2, m1, m2, s1, s2] = true then
      match rest with
      | [] =>
        DateTime.mk? (val4 y1 y2 y3 y4) (val2 a1 a2) (val2 b1 b2) (val2 h1 h2)
          (val2 m1 m2) (val2 s1 s2) 0
      | c6 :: u1 :: u2 :: u3 :: u4 :: u5 :: u6 :: [] =>
        if c6 = '.' ∧ allDigits [u1, u2, u3, u4, u5, u6] = true then
          DateTime.mk? (val4 y1 y2 y3 y4) (val2 a1 a2) (val2 b1 b2) (val2 h1 h2)
            (val2 m1 m2) (val2 s1 s2) (val6 u1 u2 u3 u4 u5 u6)
        else none
      | _ => none
    else none
  | _ => none

theorem digitVal_digitChar (k : Nat) (h : k < 10) : digitVal (digitChar k) = k := by
  interval_cases k <;> rfl

theorem isDigitChar_digitChar (k : Nat) (h : k < 10) : isDigitChar (digitChar k) = true := by
  interval_cases k <;> rfl

theorem fromisoformat_isoformat (d : DateTime) (h : d.Valid) :
    DateTime.fromisoformat d.isoformat = some d := by
  obtain ⟨hy1, hy2, hmo1, hmo2, hd1, hd2, hh, hmi, hs, hu⟩ := h
  have hdig : ∀ n : Nat, n % 10 < 10 := fun n => Nat.mod_lt _ (by decide)
  unfold DateTime.isoformat DateTime.fromisoformat
  by_cases hus : d.microsecond = 0
  · simp only [hus, if_true, List.append_nil]
    simp only [pad4, pad2, String.toList, String.mk, List.cons_append, List.nil_append]
    simp only [allDigits, List.all_cons, List.all_nil, isDigitChar_digitChar _ (hdig _),
      Bool.and_self, Bool.and_true, and_self, if_true, and_true]
    simp only [val4, val2, digitVal_digitChar _ (hdig _)]
    have h4 : d.year / 1000 % 10 * 1000 + d.year / 100 % 10 * 100 + d.year / 10 % 10 * 10 +
        d.year % 10 = d.year := by omega
    have h2mo : d.month / 10 % 10 * 10 + d.month % 10 = d.month := by omega
    have h2d : d.day / 10 % 10 * 10 + d.day % 10 = d.day := by omega
    have h2h : d.hour / 10 % 10 * 10 + d.hour % 10 = d.hour := by omega
    have h2mi : d.minute / 10 % 10 * 10 + d.minute % 10 = d.minute := by omega
    have h2s : d.second / 10 % 10 * 10 + d.second % 10 = d.second := by omega
    rw [h4, h2mo, h2d, h2h, h2mi, h2s]
    unfold DateTime.mk?
    rw [if_pos (by omega)]
    cases d
    simp_all
  · simp only [hus, if_false, if_neg hus]
    simp only [pad4, pad2, pad6, String.toList, String.mk, List.cons_append, List.nil_append,
      List.append_nil]
    simp only [allDigits, List.all_cons, List.all_nil, isDigitChar_digitChar _ (hdig _),
      Bool.and_self, Bool.and_true, and_self, if_true, and_true]
    simp only [val4, val2, val6, digitVal_digitChar _ (hdig _)]
    have h4 : d.year / 1000 % 10 * 1000 + d.year / 100 % 10 * 100 + d.year / 10 % 10 * 10 +
        d.year % 10 = d.year := by omega
    have h2mo : d.month / 10 % 10 * 10 + d.month % 10 = d.month := by omega
    have h2d : d.day / 10 % 10 * 10 + d.day % 10 = d.day := by omega
    have h2h : d.hour / 10 % 10 * 10 + d.hour % 10 = d.hour := by omega
    have h2mi : d.minute / 10 % 10 * 10 + d.minute % 10 = d.minute := by omega
    have h2s : d.second / 10 % 10 * 10 + d.second % 10 = d.second := by omega
    have h6 : d.microsecond / 100000 % 10 * 100000 + d.microsecond / 10000 % 10 * 10000 +
        d.microsecond / 1000 % 10 * 1000 + d.microsecond / 100 % 10 * 100 +
        d.microsecond / 10 % 10 * 10 + d.microsecond % 10 = d.microsecond := by omega
    rw [h4, h2mo, h2d, h2h, h2mi, h2s, h6]
    unfold DateTime.mk?
    rw [if_pos (by omega)]

theorem isoformat_ne_empty (d : DateTime) : d.isoformat ≠ "" := by
  unfold DateTime.isoformat
  intro hcon
  have hdata := congrArg String.data hcon
  simp [pad4] at hdata

/-- A JSON document value as held in an on-disk file: exactly what
`json.dump` can emit and `json.load` can produce. -/
inductive JVal where
  | null : JVal
  | bool : Bool → JVal
  | int : Int → JVal
  | float : Rat → JVal
  | str : String → JVal
  | arr : List JVal → JVal
  | obj : List (String × JVal) → JVal
deriving Repr

/-- An in-memory Python value as the persistence service manipulates it:
the JSON-safe values plus `datetime` objects, which `json.dump` rejects. -/
inductive PyVal where
  | none : PyVal
  | bool : Bool → PyVal
  | int : Int → PyVal
  | float : Rat → PyVal
  | str : String → PyVal
  | dt : DateTime → PyVal
  | list : List PyVal → PyVal
  | dict : List (String × PyVal) → PyVal
deriving Repr

/-- A Python dictionary as the metadata record: insertion-ordered
association list of string keys. -/
abbrev PyDict := List (String × PyVal)

mutual

/-- `json.dump` of a Python value: `Option.none` models the `TypeError`
raised on a non-serializable value (a `datetime` object). -/
def pyToJson : PyVal → Option JVal
  | .none => some .null
  | .bool b => some (.bool b)
  | .int n => some (.int n)
  | .float q => some (.float q)
  | .str s => some (.str s)
  | .dt _ => Option.none
  | .list xs => (pyListToJson xs).map .arr
  | .dict kvs => (pyDictToJson kvs).map .obj

/-- `json.dump` elementwise on a Python list. -/
def pyListToJson : List PyVal → Option (List JVal)
  | [] => some []
  | x :: xs =>
    match pyToJson x, pyListToJson xs with
    | some j, some js => some (j :: js)
    | _, _ => Option.none

/-- `json.dump` elementwise on a Python dict. -/
def pyDictToJson : PyDict → Option (List (String × JVal))
  | [] => some []
  | (k, v) :: kvs =>
    match pyToJson v, pyDictToJson kvs with
    | some j, some js => some ((k, j) :: js)
    | _, _ => Option.none

end

mutual

/-- `json.load` of a document value into the Python value it denotes. -/
def jsonToPy : JVal → PyVal
  | .null => .none
  | .bool b => .bool b
  | .int n => .int n
  | .float q => .float q
  | .str s => .str s
  | .arr xs => .list (jsonListToPy xs)
  | .obj kvs => .dict (jsonDictToPy kvs)

/-- `json.load` elementwise on an array. -/
def jsonListToPy : List JVal → List PyVal
  | [] => []
  | x :: xs => jsonToPy x :: jsonListToPy xs

/-- `json.load` elementwise on an object. -/
def jsonDictToPy : List (String × JVal) → PyDict
  | [] => []
  | (k, v) :: kvs => (k, jsonToPy v) :: jsonDictToPy kvs

end

mutual

theorem jsonToPy_pyToJson (v : PyVal) (j : JVal) (h : pyToJson v = some j) :
    jsonToPy j = v := by
  cases v with
  | none => cases h; rfl
  | bool b => cases h; rfl
  | int n => cases h; rfl
  | float q => cases h; rfl
  | str s => cases h; rfl
  | dt d => exact absurd h (by simp [pyToJson])
  | list xs =>
    unfold pyToJson at h
    cases hxs : pyListToJson xs with
    | none => rw [hxs] at h; cases h
    | some js =>
      rw [hxs] at h
      cases h
      unfold jsonToPy
      rw [jsonListToPy_pyListToJson xs js hxs]
  | dict kvs =>
    unfold pyToJson at h
    cases hkvs : pyDictToJson kvs with
    | none => rw [hkvs] at h; cases h
    | some js =>
      rw [hkvs] at h
      cases h
      unfold jsonToPy
      rw [jsonDictToPy_pyDictToJson kvs js hkvs]

theorem jsonListToPy_pyListToJson (xs : List PyVal) (js : List JVal)
    (h : pyListToJson xs = some js) : jsonListToPy js = xs := by
  cases xs with
  | nil => cases h; rfl
  | cons x rest =>
    unfold pyListToJson at h
    cases hx : pyToJson x with
    | none => rw [hx] at h; cases h
    | some j =>
      rw [hx] at h
      cases hrest : pyListToJson rest with
      | none => rw [hrest] at h; cases h
      | some jrest =>
        rw [hrest] at h
        cases h
        unfold jsonListToPy
        rw [jsonToPy_pyToJson x j hx, jsonListToPy_pyListToJson rest jrest hrest]

theorem jsonDictToPy_pyDictToJson (kvs : PyDict) (js : List (String × JVal))
    (h : pyDictToJson kvs = some js) : jsonDictToPy js = kvs := by
  cases kvs with
  | nil => cases h; rfl
  | cons kv rest =>
    obtain ⟨k, v⟩ := kv
    unfold pyDictToJson at h
    cases hv : pyToJson v with
    | none => rw [hv] at h; cases h
    | some j =>
      rw [hv] at h
      cases hrest : pyDictToJson rest with
      | none => rw [hrest] at h; cases h
      | some jrest =>
        rw [hrest] at h
        cases h
        unfold jsonDictToPy
        rw [jsonToPy_pyToJson v j hv, jsonDictToPy_pyDictToJson rest jrest hrest]

end

mutual

theorem pyToJson_jsonToPy (j : JVal) : pyToJson (jsonToPy j) = some j := by
  cases j with
  | null => rfl
  | bool b => rfl
  | int n => rfl
  | float q => rfl
  | str s => rfl
  | arr xs =>
    unfold jsonToPy pyToJson
    rw [pyListToJson_jsonListToPy xs]
    rfl
  | obj kvs =>
    unfold jsonToPy pyToJson
    rw [pyDictToJson_jsonDictToPy kvs]
    rfl

theorem pyListToJson_jsonListToPy (xs : List JVal) :
    pyListToJson (jsonListToPy xs) = some xs := by
  cases xs with
  | nil => rfl
  | cons x rest =>
    unfold jsonListToPy pyListToJson
    rw [pyToJson_jsonToPy x, pyListToJson_jsonListToPy rest]

theorem pyDictToJson_jsonDictToPy (kvs : List (String × JVal)) :
    pyDictToJson (jsonDictToPy kvs) = some kvs := by
  cases kvs with
  | nil => rfl
  | cons kv rest =>
    obtain ⟨k, v⟩ := kv
    unfold jsonDictToPy pyDictToJson
    rw [pyToJson_jsonToPy v, pyDictToJson_jsonDictToPy rest]

end

/-- Contents of one on-disk document file: either a parseable JSON document
or bytes that `json.load` rejects. -/
inductive FileContent where
  | ok : JVal → FileContent
  | corrupt : FileContent
deriving Repr

/-- One task directory under the output root: the two document slots the
persistence service reads and writes (binary artifacts are irrelevant to
the claims). -/
structure TaskDir where
  metadataFile : Option FileContent
  storyboardFile : Option FileContent
deriving Repr

/-- The output directory: association list of task directories in the order
`Path.iterdir` yields them. -/
abbrev Store := List (String × TaskDir)

/-- Exceptions the embedded operations can raise. -/
inductive PError where
  | ioError : PError
  | typeError : PError
deriving DecidableEq, Repr

/-- Lookup of a task directory by name. -/
def storeGetDir : Store → String → Option TaskDir
  | [], _ => Option.none
  | (k, d) :: rest, tid => if k = tid then some d else storeGetDir rest tid

/-- Replace the named task directory in place (directory names are unique on
a real filesystem; the first occurrence is the directory). -/
def storeSetDir : Store → String → TaskDir → Store
  | [], tid, d => [(tid, d)]
  | (k, d0) :: rest, tid, d =>
    if k = tid then (k, d) :: rest else (k, d0) :: storeSetDir rest tid d

/-- `task_dir.mkdir(parents=True, exist_ok=True)`: create the directory if
absent, leave it untouched otherwise. -/
def mkdirTask (st : Store) (tid : String) : Store :=
  match storeGetDir st tid with
  | some _ => st
  | Option.none => st ++ [(tid, ⟨Option.none, Option.none⟩)]

/-- Write the metadata document of an existing task directory (the callers
below always create the directory first). -/
def setMetadataFile (st : Store) (tid : String) (fc : FileContent) : Store :=
  match storeGetDir st tid with
  | some d => storeSetDir st tid ⟨some fc, d.storyboardFile⟩
  | Option.none => st

/-- Write the storyboard document of an existing task directory. -/
def setStoryboardFile (st : Store) (tid : String) (fc : FileContent) : Store :=
  match storeGetDir st tid with
  | some d => storeSetDir st tid ⟨d.metadataFile, some fc⟩
  | Option.none => st

/-- Python dict assignment `m[k] = v`: overwrite in place if the key exists
(keys are unique in a Python dict), append at the end otherwise. -/
def dictSet : PyDict → String → PyVal → PyDict
  | [], k, v => [(k, v)]
  | (k0, v0) :: rest, k, v =>
    if k0 = k then (k, v) :: rest else (k0, v0) :: dictSet rest k v

/-- Python `m.get(k)`: first (unique) matching key, `None` when absent. -/
def dictGet? : PyDict → String → Option PyVal
  | [], _ => Option.none
  | (k0, v) :: rest, k => if k0 = k then some v else dictGet? rest k

/-- The timestamp normalization of `save_task_metadata`: when the key is
present and holds a `datetime` object, replace that value (in place) by its
ISO string. -/
def convertTsField : PyDict → String → PyDict
  | [], _ => []
  | (k0, v0) :: rest, k =>
    if k0 = k then
      (k0, match v0 with | .dt d => .str d.isoformat | v => v) :: rest
    else (k0, v0) :: convertTsField rest k

/-- The full in-place mutation `save_task_metadata` applies to the caller's
metadata dict before serializing: set `task_id`, then convert the
`created_at` and `completed_at` fields. -/
def normalizeMetadata (tid : String) (m : PyDict) : PyDict :=
  convertTsField (convertTsField (dictSet m "task_id" (.str tid)) "created_at") "completed_at"

/-- `PersistenceService.save_task_metadata`.  Returns the final value of the
caller's (mutated) metadata dict, the resulting store, and the exception
propagated to the caller, if any.  `wfail` injects a filesystem failure of
`open(..., "w")` (the `except` clause logs and re-raises).  A dict that
`json.dump` cannot serialize raises `TypeError` after `open` has already
truncated the file, leaving it corrupt. -/
def save_task_metadata (wfail : Bool) (st : Store) (tid : String) (m : PyDict) :
    PyDict × Store × Option PError :=
  let st1 := mkdirTask st tid
  let m2 := normalizeMetadata tid m
  if wfail then (m2, st1, some .ioError)
  else
    match pyDictToJson m2 with
    | Option.none => (m2, setMetadataFile st1 tid .corrupt, some .typeError)
    | some js => (m2, setMetadataFile st1 tid (.ok (.obj js)), Option.none)

/-- `PersistenceService.load_task_metadata`: `None` when the file does not
exist; on any exception (in particular a JSON decode error on a corrupt
file) the handler logs and also returns `None`. -/
def load_task_metadata (st : Store) (tid : String) : Option PyVal :=
  match storeGetDir st tid with
  | Option.none => Option.none
  | some d =>
    match d.metadataFile with
    | Option.none => Option.none
    | some .corrupt => Option.none
    | some (.ok j) => some (jsonToPy j)

/-- Whether the metadata document file exists on disk. -/
def metadataFileExists (st : Store) (tid : String) : Bool :=
  match storeGetDir st tid with
  | some d => d.metadataFile.isSome
  | Option.none => false

/-- Python truthiness of a value, as used by `if not metadata` and
`if error`. -/
def pyTruthy : PyVal → Bool
  | .none => false
  | .bool b => b
  | .int n => !(decide (n = 0))
  | .float q => !(decide (q = 0))
  | .str s => !(decide (s = ""))
  | .dt _ => true
  | .list xs => !xs.isEmpty
  | .dict kvs => !kvs.isEmpty

/-- `PersistenceService.update_task_status`.  `now` is the value
`datetime.now()` returns during the call.  The surrounding `try/except`
logs any exception and does not re-raise, so the error component of the
result is always `none`. -/
def update_task_status (wfail : Bool) (now : DateTime) (st : Store) (tid status : String)
    (error : Option String) : Store × Option PError :=
  match load_task_metadata st tid with
  | Option.none => (st, Option.none)
  | some m =>
    if pyTruthy m = false then (st, Option.none)
    else
      match m with
      | .dict kvs =>
        let kvs1 := dictSet kvs "status" (.str status)
        let kvs2 :=
          if status = "completed" ∨ status = "failed" ∨ status = "cancelled" then
            dictSet kvs1 "completed_at" (.str now.isoformat)
          else kvs1
        let kvs3 :=
          match error with
          | some e => if e = "" then kvs2 else dictSet kvs2 "error" (.str e)
          | Option.none => kvs2
        let r := save_task_metadata wfail st tid kvs3
        (r.2.1, Option.none)
      | _ => (st, Option.none)

/-- `PersistenceService.task_exists`: directory existence check. -/
def task_exists (st : Store) (tid : String) : Bool :=
  (storeGetDir st tid).isSome

/-- `PersistenceService.delete_task`.  `dfail` injects a failure of
`shutil.rmtree` partway through the removal (here: after the storyboard
document was removed); the handler logs and re-raises. -/
def delete_task (dfail : Bool) (st : Store) (tid : String) : Store × Option PError :=
  match storeGetDir st tid with
  | Option.none => (st, Option.none)
  | some d =>
    if dfail then (storeSetDir st tid ⟨d.metadataFile, Option.none⟩, some .ioError)
    else (st.filter (fun e => !(decide (e.1 = tid))), Option.none)

/-- The sort key `lambda t: t.get("created_at", "")` of `list_tasks`:
well defined (a string) exactly when the record is a dict whose
`created_at`, if present, is a string. -/
def sortKeyOk : PyVal → Bool
  | .dict kvs =>
    match dictGet? kvs "created_at" with
    | Option.none => true
    | some (.str _) => true
    | some _ => false
  | _ => false

/-- The string sort key of a record (the `""` default covers a missing
field). -/
def createdAtKey : PyVal → String
  | .dict kvs =>
    match dictGet? kvs "created_at" with
    | some (.str s) => s
    | _ => ""
  | _ => ""

/-- Stable descending insertion: place `a` before the first element whose
key is less than or equal to `a`'s, so elements processed earlier (later in
the original list) with an equal key end up after `a`. -/
def insertDesc (a : PyVal) : List PyVal → List PyVal
  | [] => [a]
  | b :: rest =>
    if createdAtKey b ≤ createdAtKey a then a :: b :: rest
    else b :: insertDesc a rest

/-- `tasks.sort(key=lambda t: t.get("created_at", ""), reverse=True)`:
Python's sort is stable, and a stable sort by a fixed key is extensionally
unique, so this stable insertion sort computes the same list. -/
def sortByCreatedAtDesc : List PyVal → List PyVal
  | [] => []
  | a :: rest => insertDesc a (sortByCreatedAtDesc rest)

/-- The record-collection loop of `list_tasks`: skip directories without a
metadata document, skip (with a warning) documents that fail to parse, and
apply the status filter.  `status` is truthy only when it is a non-empty
string; a non-dict record reaches `metadata.get` only when the filter is
truthy, and the raised `AttributeError` is caught by the per-task handler,
which skips the record. -/
def listCollect (st : Store) (status : Option String) : List PyVal :=
  st.filterMap (fun e =>
    match e.2.metadataFile with
    | some (.ok j) =>
      let m := jsonToPy j
      match status with
      | some s =>
        if s = "" then some m
        else
          match m with
          | .dict kvs =>
            match dictGet? kvs "status" with
            | some (.str s2) => if s2 = s then some m else Option.none
            | _ => Option.none
          | _ => Option.none
      | Option.none => some m
    | _ => Option.none)

/-- `PersistenceService.list_tasks`.  When some collected record's sort key
is not a string, CPython's `list.sort` raises (`AttributeError` while
computing a key of a non-dict record, `TypeError` when a non-string key is
compared against a string); the outer handler then logs and returns `[]`.
The model takes that exception path whenever any key is ill-typed; states
in which every record's `created_at` is uniformly non-string fall outside
the metadata data model and outside every theorem below. -/
def list_tasks (st : Store) (status : Option String) (limit offset : Nat) : List PyVal :=
  let tasks := listCollect st status
  if tasks.all sortKeyOk then
    ((sortByCreatedAtDesc tasks).drop offset).take limit
  else []

/-- The record set described by the claim for `list_tasks` (second
definition, following the spec's words, to be compared with the translated
one): exactly the parseable metadata records whose status field equals the
filter — all records when no filter is given — sorted by `created_at`
descending, with `offset` skipped and at most `limit` returned. -/
def list_tasks_spec (st : Store) (status : Option String) (limit offset : Nat) :
    List PyVal :=
  let recs := st.filterMap (fun e =>
    match e.2.metadataFile with
    | some (.ok j) => some (jsonToPy j)
    | _ => Option.none)
  let filtered :=
    match status with
    | Option.none => recs
    | some s => recs.filter (fun m =>
        match m with
        | .dict kvs =>
          match dictGet? kvs "status" with
          | some (.str s2) => decide (s2 = s)
          | _ => false
        | _ => false)
  ((sortByCreatedAtDesc filtered).drop offset).take limit

/-- Modelled from the spec: the `ContentMetadata` dataclass of
`pixelle_video.models.storyboard`, whose module is not under `src/`; the
field list follows the spec's data model and the serializers in
`persistence.py` (`title` required, the rest optional). -/
structure ContentMetadata where
  title : String
  author : Option String
  subtitle : Option String
  genre : Option String
  summary : Option String
  publication_year : Option Int
  cover_url : Option String
deriving DecidableEq, Repr

/-- Modelled from the spec: the `StoryboardConfig` dataclass of
`pixelle_video.models.storyboard`, whose module is not under `src/`; fields
and optionality follow the spec's data model and the accesses and `.get`
defaults in `persistence.py`. -/
structure StoryboardConfig where
  task_id : Option String
  n_storyboard : Int
  min_narration_words : Int
  max_narration_words : Int
  min_image_prompt_words : Int
  max_image_prompt_words : Int
  video_fps : Int
  tts_inference_mode : String
  voice_id : Option String
  tts_workflow : Option String
  tts_speed : Option Rat
  ref_audio : Option String
  image_width : Int
  image_height : Int
  image_workflow : Option String
  frame_template : String
  template_params : Option (List (String × JVal))
deriving Repr

/-- Modelled from the spec: the `StoryboardFrame` dataclass of
`pixelle_video.models.storyboard`, whose module is not under `src/`. -/
structure StoryboardFrame where
  index : Int
  narration : String
  image_prompt : String
  audio_path : Option String
  media_type : Option String
  image_path : Option String
  video_path : Option String
  composed_image_path : Option String
  video_segment_path : Option String
  duration : Rat
  created_at : Option DateTime
deriving DecidableEq, Repr

/-- Modelled from the spec: the `Storyboard` dataclass of
`pixelle_video.models.storyboard`, whose module is not under `src/`. -/
structure Storyboard where
  title : String
  config : StoryboardConfig
  frames : List StoryboardFrame
  content_metadata : Option ContentMetadata
  final_video_path : Option String
  total_duration : Rat
  created_at : Option DateTime
  completed_at : Option DateTime
deriving Repr

/-- Encoding of an optional string field (`None` becomes JSON null). -/
def jStr? : Option String → JVal
  | some s => .str s
  | Option.none => .null

/-- Encoding of an optional integer field. -/
def jInt? : Option Int → JVal
  | some n => .int n
  | Option.none => .null

/-- Encoding of an optional float field. -/
def jRat? : Option Rat → JVal
  | some q => .float q
  | Option.none => .null

/-- Encoding of an optional datetime field:
`x.isoformat() if x else None`. -/
def jDT? : Option DateTime → JVal
  | some d => .str d.isoformat
  | Option.none => .null

/-- `PersistenceService._config_to_dict`. -/
def config_to_dict (c : StoryboardConfig) : JVal :=
  .obj [("task_id", jStr? c.task_id),
        ("n_storyboard", .int c.n_storyboard),
        ("min_narration_words", .int c.min_narration_words),
        ("max_narration_words", .int c.max_narration_words),
        ("min_image_prompt_words", .int c.min_image_prompt_words),
        ("max_image_prompt_words", .int c.max_image_prompt_words),
        ("video_fps", .int c.video_fps),
        ("tts_inference_mode", .str c.tts_inference_mode),
        ("voice_id", jStr? c.voice_id),
        ("tts_workflow", jStr? c.tts_workflow),
        ("tts_speed", jRat? c.tts_speed),
        ("ref_audio", jStr? c.ref_audio),
        ("image_width", .int c.image_width),
        ("image_height", .int c.image_height),
        ("image_workflow", jStr? c.image_workflow),
        ("frame_template", .str c.frame_template),
        ("template_params", match c.template_params with
          | some kvs => .obj kvs
          | Option.none => .null)]

/-- `PersistenceService._frame_to_dict`. -/
def frame_to_dict (f : StoryboardFrame) : JVal :=
  .obj [("index", .int f.index),
        ("narration", .str f.narration),
        ("image_prompt", .str f.image_prompt),
        ("audio_path", jStr? f.audio_path),
        ("media_type", jStr? f.media_type),
        ("image_path", jStr? f.image_path),
        ("video_path", jStr? f.video_path),
        ("composed_image_path", jStr? f.composed_image_path),
        ("video_segment_path", jStr? f.video_segment_path),
        ("duration", .float f.duration),
        ("created_at", jDT? f.created_at)]

/-- `PersistenceService._content_metadata_to_dict`. -/
def content_metadata_to_dict (m : ContentMetadata) : JVal :=
  .obj [("title", .str m.title),
        ("author", jStr? m.author),
        ("subtitle", jStr? m.subtitle),
        ("genre", jStr? m.genre),
        ("summary", jStr? m.summary),
        ("publication_year", jInt? m.publication_year),
        ("cover_url", jStr? m.cover_url)]

/-- `PersistenceService._storyboard_to_dict`. -/
def storyboard_to_dict (s : Storyboard) : JVal :=
  .obj [("title", .str s.title),
        ("config", config_to_dict s.config),
        ("frames", .arr (s.frames.map frame_to_dict)),
        ("content_metadata", match s.content_metadata with
          | some m => content_metadata_to_dict m
          | Option.none => .null),
        ("final_video_path", jStr? s.final_video_path),
        ("total_duration", .float s.total_duration),
        ("created_at", jDT? s.created_at),
        ("completed_at", jDT? s.completed_at)]

/-- `data.get(k)` on a JSON object. -/
def jGet : List (String × JVal) → String → Option JVal
  | [], _ => Option.none
  | (k0, v) :: rest, k => if k0 = k then some v else jGet rest k

/-- Python falsiness of a JSON-loaded value, as `if data.get(...)` tests
it. -/
def jFalsy : JVal → Bool
  | .null => true
  | .bool b => !b
  | .int n => decide (n = 0)
  | .float q => decide (q = 0)
  | .str s => decide (s = "")
  | .arr xs => xs.isEmpty
  | .obj kvs => kvs.isEmpty

/-- Decode an optional string field read with plain `.get`: absent or null
become `None`.  A value of any other type would be stored untouched by the
untyped Python dataclass; the typed record rejects it, which no theorem
below depends on. -/
def decStr? : Option JVal → Option (Option String)
  | Option.none => some Option.none
  | some .null => some Option.none
  | some (.str s) => some (some s)
  | some _ => Option.none

/-- Decode an optional integer field read with plain `.get`. -/
def decInt? : Option JVal → Option (Option Int)
  | Option.none => some Option.none
  | some .null => some Option.none
  | some (.int n) => some (some n)
  | some _ => Option.none

/-- Decode an optional float field read with plain `.get`. -/
def decRat? : Option JVal → Option (Option Rat)
  | Option.none => some Option.none
  | some .null => some Option.none
  | some (.float q) => some (some q)
  | some _ => Option.none

/-- Decode a required string field read with `data[k]` (a missing key
raises `KeyError`, which the loader's handler turns into `None`). -/
def decStrReq : Option JVal → Option String
  | some (.str s) => some s
  | _ => Option.none

/-- Decode a required integer field read with `data[k]`. -/
def decIntReq : Option JVal → Option Int
  | some (.int n) => some n
  | _ => Option.none

/-- Decode an integer field read with `.get(k, default)`: the default
applies only when the key is absent. -/
def decIntD (o : Option JVal) (dflt : Int) : Option Int :=
  match o with
  | Option.none => some dflt
  | some (.int n) => some n
  | some _ => Option.none

/-- Decode a string field read with `.get(k, default)`. -/
def decStrD (o : Option JVal) (dflt : String) : Option String :=
  match o with
  | Option.none => some dflt
  | some (.str s) => some s
  | some _ => Option.none

/-- Decode a float field read with `.get(k, default)`. -/
def decRatD (o : Option JVal) (dflt : Rat) : Option Rat :=
  match o with
  | Option.none => some dflt
  | some (.float q) => some q
  | some _ => Option.none

/-- Decode a datetime field:
`datetime.fromisoformat(data[k]) if data.get(k) else None`; a falsy value
gives `None`, a malformed string raises `ValueError` (decoded as failure,
which the loader's handler turns into `None`). -/
def decDT? (o : Option JVal) : Option (Option DateTime) :=
  match o with
  | Option.none => some Option.none
  | some j =>
    if jFalsy j then some Option.none
    else
      match j with
      | .str s => (DateTime.fromisoformat s).map some
      | _ => Option.none

/-- First half of `_dict_to_config`'s field decoding (split only to keep
elaboration tractable; the `.get` defaults are those of the source). -/
def configFieldsA (kvs : List (String × JVal)) :
    Option (Option String × Int × Int × Int × Int × Int × Int × String × Option String) :=
  (decStr? (jGet kvs "task_id")).bind fun task_id =>
  (decIntD (jGet kvs "n_storyboard") 5).bind fun n_storyboard =>
  (decIntD (jGet kvs "min_narration_words") 5).bind fun mnw =>
  (decIntD (jGet kvs "max_narration_words") 20).bind fun mxw =>
  (decIntD (jGet kvs "min_image_prompt_words") 30).bind fun mipw =>
  (decIntD (jGet kvs "max_image_prompt_words") 60).bind fun mxpw =>
  (decIntD (jGet kvs "video_fps") 30).bind fun fps =>
  (decStrD (jGet kvs "tts_inference_mode") "local").bind fun mode =>
  (decStr? (jGet kvs "voice_id")).bind fun voice =>
  some (task_id, n_storyboard, mnw, mxw, mipw, mxpw, fps, mode, voice)

/-- Second half of `_dict_to_config`'s field decoding. -/
def configFieldsB (kvs : List (String × JVal)) :
    Option (Option String × Option Rat × Option String × Int × Int × Option String ×
      String × Option (List (String × JVal))) :=
  (decStr? (jGet kvs "tts_workflow")).bind fun wf =>
  (decRat? (jGet kvs "tts_speed")).bind fun speed =>
  (decStr? (jGet kvs "ref_audio")).bind fun ref =>
  (decIntD (jGet kvs "image_width") 1024).bind fun w =>
  (decIntD (jGet kvs "image_height") 1024).bind fun h =>
  (decStr? (jGet kvs "image_workflow")).bind fun iwf =>
  (decStrD (jGet kvs "frame_template") "1080x1920/default.html").bind fun tmpl =>
  (match jGet kvs "template_params" with
    | Option.none => some Option.none
    | some .null => some Option.none
    | some (.obj tp) => some (some tp)
    | some _ => Option.none).bind fun tp =>
  some (wf, speed, ref, w, h, iwf, tmpl, tp)

/-- `PersistenceService._dict_to_config`. -/
def dict_to_config (j : JVal) : Option StoryboardConfig :=
  match j with
  | .obj kvs =>
    match configFieldsA kvs, configFieldsB kvs with
    | some (task_id, n_storyboard, mnw, mxw, mipw, mxpw, fps, mode, voice),
      some (wf, speed, ref, w, h, iwf, tmpl, tp) =>
      some (StoryboardConfig.mk task_id n_storyboard mnw mxw mipw mxpw fps mode voice
        wf speed ref w h iwf tmpl tp)
    | _, _ => Option.none
  | _ => Option.none

/-- `PersistenceService._dict_to_frame`. -/
def dict_to_frame (j : JVal) : Option StoryboardFrame :=
  match j with
  | .obj kvs =>
    (decIntReq (jGet kvs "index")).bind fun index =>
    (decStrReq (jGet kvs "narration")).bind fun narration =>
    (decStrReq (jGet kvs "image_prompt")).bind fun image_prompt =>
    (decStr? (jGet kvs "audio_path")).bind fun audio_path =>
    (decStr? (jGet kvs "media_type")).bind fun media_type =>
    (decStr? (jGet kvs "image_path")).bind fun image_path =>
    (decStr? (jGet kvs "video_path")).bind fun video_path =>
    (decStr? (jGet kvs "composed_image_path")).bind fun composed_image_path =>
    (decStr? (jGet kvs "video_segment_path")).bind fun video_segment_path =>
    (decRatD (jGet kvs "duration") 0).bind fun duration =>
    (decDT? (jGet kvs "created_at")).bind fun created_at =>
    some (StoryboardFrame.mk index narration image_prompt audio_path media_type
      image_path video_path composed_image_path video_segment_path duration created_at)
  | _ => Option.none

/-- `PersistenceService._dict_to_content_metadata`. -/
def dict_to_content_metadata (j : JVal) : Option ContentMetadata :=
  match j with
  | .obj kvs =>
    (decStrReq (jGet kvs "title")).bind fun title =>
    (decStr? (jGet kvs "author")).bind fun author =>
    (decStr? (jGet kvs "subtitle")).bind fun subtitle =>
    (decStr? (jGet kvs "genre")).bind fun genre =>
    (decStr? (jGet kvs "summary")).bind fun summary =>
    (decInt? (jGet kvs "publication_year")).bind fun publication_year =>
    (decStr? (jGet kvs "cover_url")).bind fun cover_url =>
    some (ContentMetadata.mk title author subtitle genre summary publication_year cover_url)
  | _ => Option.none

/-- Decode the frame list elementwise. -/
def decFrames : List JVal → Option (List StoryboardFrame)
  | [] => some []
  | j :: rest =>
    match dict_to_frame j, decFrames rest with
    | some f, some fs => some (f :: fs)
    | _, _ => Option.none

/-- `PersistenceService._dict_to_storyboard`.  `content_metadata` is decoded
only when `data.get("content_metadata")` is truthy, so null and a missing
key both give `None`. -/
def dict_to_storyboard (j : JVal) : Option Storyboard :=
  match j with
  | .obj kvs =>
    (decStrReq (jGet kvs "title")).bind fun title =>
    ((jGet kvs "config").bind dict_to_config).bind fun config =>
    (match jGet kvs "frames" with
      | some (.arr fs) => decFrames fs
      | _ => Option.none).bind fun frames =>
    (match jGet kvs "content_metadata" with
      | Option.none => some Option.none
      | some j2 =>
        if jFalsy j2 then some Option.none
        else (dict_to_content_metadata j2).map some).bind fun content_metadata =>
    (decStr? (jGet kvs "final_video_path")).bind fun final_video_path =>
    (decRatD (jGet kvs "total_duration") 0).bind fun total_duration =>
    (decDT? (jGet kvs "created_at")).bind fun created_at =>
    (decDT? (jGet kvs "completed_at")).bind fun completed_at =>
    some (Storyboard.mk title config frames content_metadata final_video_path
      total_duration created_at completed_at)
  | _ => Option.none

/-- `PersistenceService.save_storyboard`: serialize and write, re-raising
write failures. -/
def save_storyboard (wfail : Bool) (st : Store) (tid : String) (s : Storyboard) :
    Store × Option PError :=
  let st1 := mkdirTask st tid
  if wfail then (st1, some .ioError)
  else (setStoryboardFile st1 tid (.ok (storyboard_to_dict s)), Option.none)

/-- `PersistenceService.load_storyboard`: `None` when the file does not
exist; any exception (decode error, malformed fields) is logged and also
yields `None`. -/
def load_storyboard (st : Store) (tid : String) : Option Storyboard :=
  match storeGetDir st tid with
  | Option.none => Option.none
  | some d =>
    match d.storyboardFile with
    | Option.none => Option.none
    | some .corrupt => Option.none
    | some (.ok j) => dict_to_storyboard j

/-- Validity of the optional timestamp fields of a record. -/
def ValidOptDT : Option DateTime → Prop
  | some d => d.Valid
  | Option.none => True

instance (o : Option DateTime) : Decidable (ValidOptDT o) := by
  cases o <;> unfold ValidOptDT <;> infer_instance

/-- All `datetime` objects held by a storyboard are valid `datetime`
values. -/
def Storyboard.ValidTs (s : Storyboard) : Prop :=
  ValidOptDT s.created_at ∧ ValidOptDT s.completed_at ∧
    ∀ f ∈ s.frames, ValidOptDT f.created_at

instance (s : Storyboard) : Decidable s.ValidTs := by
  unfold Storyboard.ValidTs
  infer_instance

theorem decStr?_jStr? (o : Option String) : decStr? (some (jStr? o)) = some o := by
  cases o <;> rfl

theorem decInt?_jInt? (o : Option Int) : decInt? (some (jInt? o)) = some o := by
  cases o <;> rfl

theorem decRat?_jRat? (o : Option Rat) : decRat? (some (jRat? o)) = some o := by
  cases o <;> rfl

theorem decDT?_jDT? (o : Option DateTime) (h : ValidOptDT o) :
    decDT? (some (jDT? o)) = some o := by
  cases o with
  | none => rfl
  | some d =>
    have h1 : DateTime.fromisoformat d.isoformat = some d := fromisoformat_isoformat d h
    simp [jDT?, decDT?, jFalsy, isoformat_ne_empty d, h1]

theorem dict_to_config_config_to_dict (c : StoryboardConfig) :
    dict_to_config (config_to_dict c) = some c := by
  obtain ⟨tid, ns, mnw, mxw, mipw, mxpw, fps, mode, voice, wf, speed, ref, w, h, iwf,
    tmpl, tp⟩ := c
  unfold config_to_dict dict_to_config configFieldsA configFieldsB
  simp only [jGet, if_pos, if_neg, String.reduceEq, reduceIte, decStr?_jStr?, decRat?_jRat?,
    decIntD, decStrD, Option.bind_some, Option.some_bind]
  cases tp <;> rfl

theorem dict_to_frame_frame_to_dict (f : StoryboardFrame) (h : ValidOptDT f.created_at) :
    dict_to_frame (frame_to_dict f) = some f := by
  obtain ⟨index, narration, image_prompt, audio_path, media_type, image_path, video_path,
    composed_image_path, video_segment_path, duration, created_at⟩ := f
  unfold frame_to_dict dict_to_frame
  simp only [jGet, String.reduceEq, reduceIte, decStr?_jStr?, decIntReq, decStrReq, decRatD,
    Option.bind_some, Option.some_bind]
  rw [decDT?_jDT? created_at h]
  rfl

theorem decFrames_map (fs : List StoryboardFrame) (h : ∀ f ∈ fs, ValidOptDT f.created_at) :
    decFrames (fs.map frame_to_dict) = some fs := by
  induction fs with
  | nil => rfl
  | cons f rest ih =>
    unfold decFrames
    simp only [List.map_cons]
    rw [dict_to_frame_frame_to_dict f (h f (by simp)),
      ih (fun g hg => h g (by simp [hg]))]

theorem dict_to_content_metadata_to_dict (m : ContentMetadata) :
    dict_to_content_metadata (content_metadata_to_dict m) = some m := by
  obtain ⟨title, author, subtitle, genre, summary, publication_year, cover_url⟩ := m
  unfold content_metadata_to_dict dict_to_content_metadata
  simp only [jGet, String.reduceEq, reduceIte, decStr?_jStr?, decInt?_jInt?, decStrReq,
    Option.bind_some, Option.some_bind]

theorem dict_to_storyboard_storyboard_to_dict (s : Storyboard) (h : s.ValidTs) :
    dict_to_storyboard (storyboard_to_dict s) = some s := by
  obtain ⟨hca, hcpa, hfr⟩ := h
  obtain ⟨title, config, frames, content_metadata, final_video_path, total_duration,
    created_at, completed_at⟩ := s
  unfold storyboard_to_dict dict_to_storyboard
  simp only [jGet, String.reduceEq, reduceIte, decStr?_jStr?, decStrReq, decRatD,
    Option.bind_some, Option.some_bind]
  rw [dict_to_config_config_to_dict config]
  rw [decFrames_map frames hfr]
  rw [decDT?_jDT? created_at hca, decDT?_jDT? completed_at hcpa]
  cases content_metadata with
  | none => rfl
  | some cm =>
    simp only [Option.some_bind]
    have hne : jFalsy (content_metadata_to_dict cm) = false := by
      unfold content_metadata_to_dict jFalsy
      rfl
    rw [hne]
    simp only [Bool.false_eq_true, if_false, dict_to_content_metadata_to_dict cm]
    rfl

theorem storeGetDir_append_of_none (st : Store) (tid : String) (x : TaskDir)
    (h : storeGetDir st tid = Option.none) :
    storeGetDir (st ++ [(tid, x)]) tid = some x := by
  induction st with
  | nil => simp [storeGetDir]
  | cons e rest ih =>
    obtain ⟨k, d⟩ := e
    simp only [storeGetDir, List.cons_append] at h ⊢
    by_cases hk : k = tid
    · rw [if_pos hk] at h
      cases h
    · rw [if_neg hk] at h ⊢
      exact ih h

theorem storeGetDir_mkdirTask (st : Store) (tid : String) :
    ∃ d, storeGetDir (mkdirTask st tid) tid = some d := by
  unfold mkdirTask
  cases h : storeGetDir st tid with
  | none => exact ⟨_, storeGetDir_append_of_none st tid _ h⟩
  | some d => exact ⟨d, h⟩

theorem storeGetDir_storeSetDir_of_some (st : Store) (tid : String) (d0 d : TaskDir)
    (h : storeGetDir st tid = some d0) :
    storeGetDir (storeSetDir st tid d) tid = some d := by
  induction st with
  | nil => cases h
  | cons e rest ih =>
    obtain ⟨k, d1⟩ := e
    simp only [storeGetDir] at h
    by_cases hk : k = tid
    · simp only [storeSetDir, if_pos hk, storeGetDir]
    · rw [if_neg hk] at h
      simp only [storeSetDir, if_neg hk, storeGetDir]
      exact ih h

theorem save_metadata_false_eq (st : Store) (tid : String) (m : PyDict)
    (js : List (String × JVal)) (h : pyDictToJson (normalizeMetadata tid m) = some js) :
    save_task_metadata false st tid m =
      (normalizeMetadata tid m,
        setMetadataFile (mkdirTask st tid) tid (.ok (.obj js)), Option.none) := by
  simp [save_task_metadata, h]

theorem load_after_save_metadata (st : Store) (tid : String) (m : PyDict)
    (js : List (String × JVal)) (h : pyDictToJson (normalizeMetadata tid m) = some js) :
    (save_task_metadata false st tid m).2.2 = Option.none ∧
      load_task_metadata (save_task_metadata false st tid m).2.1 tid =
        some (.dict (normalizeMetadata tid m)) := by
  obtain ⟨d, hd⟩ := storeGetDir_mkdirTask st tid
  rw [save_metadata_false_eq st tid m js h]
  refine ⟨rfl, ?_⟩
  simp only [setMetadataFile, hd]
  simp only [load_task_metadata, storeGetDir_storeSetDir_of_some _ _ _ _ hd]
  simp only [jsonToPy]
  rw [jsonDictToPy_pyDictToJson _ _ h]

theorem save_storyboard_false_eq (st : Store) (tid : String) (s : Storyboard) :
    save_storyboard false st tid s =
      (setStoryboardFile (mkdirTask st tid) tid (.ok (storyboard_to_dict s)),
        Option.none) := by
  simp [save_storyboard]

theorem load_storyboard_after_save (st : Store) (tid : String) (s : Storyboard) :
    (save_storyboard false st tid s).2 = Option.none ∧
      load_storyboard (save_storyboard false st tid s).1 tid =
        dict_to_storyboard (storyboard_to_dict s) := by
  obtain ⟨d, hd⟩ := storeGetDir_mkdirTask st tid
  rw [save_storyboard_false_eq st tid s]
  refine ⟨rfl, ?_⟩
  simp only [setStoryboardFile, hd]
  simp only [load_storyboard, storeGetDir_storeSetDir_of_some _ _ _ _ hd]

theorem dictGet?_dictSet_self (m : PyDict) (k : String) (v : PyVal) :
    dictGet? (dictSet m k v) k = some v := by
  induction m with
  | nil => simp [dictSet, dictGet?]
  | cons kv rest ih =>
    obtain ⟨k0, v0⟩ := kv
    by_cases hk : k0 = k
    · subst hk
      simp [dictSet, dictGet?]
    · simp [dictSet, dictGet?, hk, ih]

theorem dictGet?_dictSet_ne (m : PyDict) (k : String) (v : PyVal) (k' : String)
    (h : k' ≠ k) : dictGet? (dictSet m k v) k' = dictGet? m k' := by
  have hkk : ¬k = k' := fun hc => h hc.symm
  induction m with
  | nil => simp [dictSet, dictGet?, hkk]
  | cons kv rest ih =>
    obtain ⟨k0, v0⟩ := kv
    by_cases hk : k0 = k
    · subst hk
      simp [dictSet, dictGet?, hkk]
    · by_cases hk' : k0 = k'
      · subst hk'
        simp [dictSet, dictGet?, hk]
      · simp [dictSet, dictGet?, hk, hk', ih]

theorem dictGet?_convertTsField_ne (m : PyDict) (k k' : String) (h : k' ≠ k) :
    dictGet? (convertTsField m k) k' = dictGet? m k' := by
  have hkk : ¬k = k' := fun hc => h hc.symm
  induction m with
  | nil => rfl
  | cons kv rest ih =>
    obtain ⟨k0, v0⟩ := kv
    by_cases hk : k0 = k
    · subst hk
      simp [convertTsField, dictGet?, hkk]
    · by_cases hk' : k0 = k'
      · subst hk'
        simp [convertTsField, dictGet?, hk]
      · simp [convertTsField, dictGet?, hk, hk', ih]

theorem dictGet?_convertTsField_self (m : PyDict) (k : String) :
    dictGet? (convertTsField m k) k = (dictGet? m k).map
      (fun v => match v with | .dt d => .str d.isoformat | v => v) := by
  induction m with
  | nil => rfl
  | cons kv rest ih =>
    obtain ⟨k0, v0⟩ := kv
    by_cases hk : k0 = k
    · subst hk
      simp [convertTsField, dictGet?]
    · simp [convertTsField, dictGet?, hk, ih]

theorem convertMatch_eq_self (v : PyVal) :
    (pyToJson v).isSome →
      (match v with | .dt d => PyVal.str d.isoformat | v => v) = v := by
  cases v <;> intro hv <;> first
    | rfl
    | exact absurd hv (by simp [pyToJson])

theorem pyDictToJson_cons_isSome (k0 : String) (v0 : PyVal) (rest : PyDict) :
    (pyDictToJson ((k0, v0) :: rest)).isSome ↔
      (pyToJson v0).isSome ∧ (pyDictToJson rest).isSome := by
  cases hv : pyToJson v0 <;> cases hr : pyDictToJson rest <;>
    simp [pyDictToJson, hv, hr]

theorem pyDictToJson_isSome_dictSet (m : PyDict) (k : String) (v : PyVal)
    (hv : (pyToJson v).isSome) (hm : (pyDictToJson m).isSome) :
    (pyDictToJson (dictSet m k v)).isSome := by
  induction m with
  | nil =>
    rw [show dictSet ([] : PyDict) k v = [(k, v)] from rfl, pyDictToJson_cons_isSome]
    exact ⟨hv, by simp [pyDictToJson]⟩
  | cons kv rest ih =>
    obtain ⟨k0, v0⟩ := kv
    rw [pyDictToJson_cons_isSome] at hm
    by_cases hk : k0 = k
    · subst hk
      rw [show dictSet ((k0, v0) :: rest) k0 v = (k0, v) :: rest from by
        simp [dictSet], pyDictToJson_cons_isSome]
      exact ⟨hv, hm.2⟩
    · rw [show dictSet ((k0, v0) :: rest) k v = (k0, v0) :: dictSet rest k v from by
        simp [dictSet, hk], pyDictToJson_cons_isSome]
      exact ⟨hm.1, ih hm.2⟩

theorem convertTsField_cons_self (k0 : String) (v0 : PyVal) (rest : PyDict) :
    convertTsField ((k0, v0) :: rest) k0 =
      (k0, match v0 with | .dt d => PyVal.str d.isoformat | v => v) :: rest := by
  simp [convertTsField]

theorem convertTsField_cons_ne (k0 k : String) (v0 : PyVal) (rest : PyDict)
    (h : k0 ≠ k) :
    convertTsField ((k0, v0) :: rest) k = (k0, v0) :: convertTsField rest k := by
  simp [convertTsField, h]

theorem pyDictToJson_isSome_convertTsField (m : PyDict) (k : String)
    (hm : (pyDictToJson m).isSome) :
    (pyDictToJson (convertTsField m k)).isSome := by
  induction m with
  | nil => exact hm
  | cons kv rest ih =>
    obtain ⟨k0, v0⟩ := kv
    rw [pyDictToJson_cons_isSome] at hm
    by_cases hk : k0 = k
    · subst hk
      rw [convertTsField_cons_self, pyDictToJson_cons_isSome]
      refine ⟨?_, hm.2⟩
      cases v0 <;> first
        | exact hm.1
        | simp [pyToJson]
    · rw [convertTsField_cons_ne k0 k v0 rest hk, pyDictToJson_cons_isSome]
      exact ⟨hm.1, ih hm.2⟩

theorem pyDictToJson_isSome_normalize (tid : String) (m : PyDict)
    (hm : (pyDictToJson m).isSome) :
    (pyDictToJson (normalizeMetadata tid m)).isSome := by
  unfold normalizeMetadata
  exact pyDictToJson_isSome_convertTsField _ _
    (pyDictToJson_isSome_convertTsField _ _
      (pyDictToJson_isSome_dictSet _ _ _ (by simp [pyToJson]) hm))

theorem dictGet?_safe (m : PyDict) (hm : (pyDictToJson m).isSome) (k : String)
    (v : PyVal) (h : dictGet? m k = some v) : (pyToJson v).isSome := by
  induction m with
  | nil => cases h
  | cons kv rest ih =>
    obtain ⟨k0, v0⟩ := kv
    rw [pyDictToJson_cons_isSome] at hm
    by_cases hk : k0 = k
    · rw [dictGet?, if_pos hk] at h
      cases h
      exact hm.1
    · rw [dictGet?, if_neg hk] at h
      exact ih hm.2 h

theorem dictSet_ne_nil (m : PyDict) (k : String) (v : PyVal) : dictSet m k v ≠ [] := by
  cases m with
  | nil => simp [dictSet]
  | cons kv rest =>
    obtain ⟨k0, v0⟩ := kv
    by_cases hk : k0 = k <;> simp [dictSet, hk]

theorem convertTsField_ne_nil (m : PyDict) (k : String) (h : m ≠ []) :
    convertTsField m k ≠ [] := by
  cases m with
  | nil => exact absurd rfl h
  | cons kv rest =>
    obtain ⟨k0, v0⟩ := kv
    by_cases hk : k0 = k <;> simp [convertTsField, hk]

theorem normalizeMetadata_ne_nil (tid : String) (m : PyDict) :
    normalizeMetadata tid m ≠ [] := by
  unfold normalizeMetadata
  exact convertTsField_ne_nil _ _ (convertTsField_ne_nil _ _ (dictSet_ne_nil m _ _))

theorem load_task_metadata_none_of_no_dir (st : Store) (tid : String)
    (h : storeGetDir st tid = Option.none) :
    load_task_metadata st tid = Option.none := by
  unfold load_task_metadata
  rw [h]

theorem load_task_metadata_of_dir (st : Store) (tid : String) (d : TaskDir)
    (h : storeGetDir st tid = some d) :
    load_task_metadata st tid =
      (match d.metadataFile with
        | Option.none => Option.none
        | some .corrupt => Option.none
        | some (.ok j) => some (jsonToPy j)) := by
  unfold load_task_metadata
  rw [h]

theorem load_task_metadata_safe (st : Store) (tid : String) (kvs : PyDict)
    (h : load_task_metadata st tid = some (.dict kvs)) :
    (pyDictToJson kvs).isSome := by
  cases hdir : storeGetDir st tid with
  | none =>
    rw [load_task_metadata_none_of_no_dir st tid hdir] at h
    cases h
  | some d =>
    rw [load_task_metadata_of_dir st tid d hdir] at h
    cases hf : d.metadataFile with
    | none =>
      rw [hf] at h
      cases h
    | some fc =>
      rw [hf] at h
      cases fc with
      | corrupt => cases h
      | ok j =>
        have hj : jsonToPy j = .dict kvs := by
          injection h
        have hsafe := pyToJson_jsonToPy j
        rw [hj] at hsafe
        simp only [pyToJson] at hsafe
        cases hkvs : pyDictToJson kvs with
        | none =>
          rw [hkvs] at hsafe
          cases hsafe
        | some js => simp

theorem update_eq_of_dict (wfail : Bool) (now : DateTime) (st : Store) (tid s : String)
    (kvs : PyDict) (hload : load_task_metadata st tid = some (.dict kvs))
    (hne : kvs ≠ []) :
    update_task_status wfail now st tid s Option.none =
      ((save_task_metadata wfail st tid
        (if s = "completed" ∨ s = "failed" ∨ s = "cancelled" then
          dictSet (dictSet kvs "status" (.str s)) "completed_at" (.str now.isoformat)
        else dictSet kvs "status" (.str s))).2.1, Option.none) := by
  obtain ⟨kv0, rest, rfl⟩ := List.exists_cons_of_ne_nil hne
  unfold update_task_status
  rw [hload]
  rfl

theorem update_terminal_props (now : DateTime) (st : Store) (tid s : String)
    (kvs : PyDict) (hload : load_task_metadata st tid = some (.dict kvs))
    (hne : kvs ≠ []) (hterm : s = "completed" ∨ s = "failed" ∨ s = "cancelled") :
    (update_task_status false now st tid s Option.none).2 = Option.none ∧
      load_task_metadata (update_task_status false now st tid s Option.none).1 tid =
        some (.dict (normalizeMetadata tid
          (dictSet (dictSet kvs "status" (.str s)) "completed_at" (.str now.isoformat)))) ∧
      dictGet? (normalizeMetadata tid
          (dictSet (dictSet kvs "status" (.str s)) "completed_at" (.str now.isoformat)))
          "status" = some (.str s) ∧
      dictGet? (normalizeMetadata tid
          (dictSet (dictSet kvs "status" (.str s)) "completed_at" (.str now.isoformat)))
          "completed_at" = some (.str now.isoformat) ∧
      dictGet? (normalizeMetadata tid
          (dictSet (dictSet kvs "status" (.str s)) "completed_at" (.str now.isoformat)))
          "task_id" = some (.str tid) ∧
      normalizeMetadata tid
          (dictSet (dictSet kvs "status" (.str s)) "completed_at" (.str now.isoformat)) ≠ [] ∧
      (∀ k, k ≠ "status" → k ≠ "completed_at" → k ≠ "task_id" →
        dictGet? (normalizeMetadata tid
          (dictSet (dictSet kvs "status" (.str s)) "completed_at" (.str now.isoformat))) k =
          dictGet? kvs k) := by
  have hsafe := load_task_metadata_safe st tid kvs hload
  have hsafe3 : (pyDictToJson (normalizeMetadata tid
      (dictSet (dictSet kvs "status" (.str s)) "completed_at"
        (.str now.isoformat)))).isSome :=
    pyDictToJson_isSome_normalize _ _
      (pyDictToJson_isSome_dictSet _ _ _ (by simp [pyToJson])
        (pyDictToJson_isSome_dictSet _ _ _ (by simp [pyToJson]) hsafe))
  obtain ⟨js, hjs⟩ := Option.isSome_iff_exists.mp hsafe3
  rw [update_eq_of_dict false now st tid s kvs hload hne, if_pos hterm]
  obtain ⟨hserr, hsload⟩ := load_after_save_metadata st tid _ js hjs
  refine ⟨rfl, hsload, ?_, ?_, ?_, normalizeMetadata_ne_nil _ _, ?_⟩
  · unfold normalizeMetadata
    rw [dictGet?_convertTsField_ne _ _ _ (by decide),
      dictGet?_convertTsField_ne _ _ _ (by decide),
      dictGet?_dictSet_ne _ _ _ _ (by decide),
      dictGet?_dictSet_ne _ _ _ _ (by decide),
      dictGet?_dictSet_self]
  · unfold normalizeMetadata
    rw [dictGet?_convertTsField_self,
      dictGet?_convertTsField_ne _ _ _ (by decide),
      dictGet?_dictSet_ne _ _ _ _ (by decide),
      dictGet?_dictSet_self]
    rfl
  · unfold normalizeMetadata
    rw [dictGet?_convertTsField_ne _ _ _ (by decide),
      dictGet?_convertTsField_ne _ _ _ (by decide),
      dictGet?_dictSet_self]
  · intro k hks hkc hkt
    unfold normalizeMetadata
    by_cases hkcr : k = "created_at"
    · subst hkcr
      rw [dictGet?_convertTsField_ne _ _ _ (by decide),
        dictGet?_convertTsField_self,
        dictGet?_dictSet_ne _ _ _ _ (fun hc => hkt hc),
        dictGet?_dictSet_ne _ _ _ _ (fun hc => hkc hc),
        dictGet?_dictSet_ne _ _ _ _ (fun hc => hks hc)]
      cases hca : dictGet? kvs "created_at" with
      | none => rfl
      | some v =>
        rw [Option.map_some']
        rw [convertMatch_eq_self v (dictGet?_safe kvs hsafe _ v hca)]
    · rw [dictGet?_convertTsField_ne _ _ _ hkc,
        dictGet?_convertTsField_ne _ _ _ hkcr,
        dictGet?_dictSet_ne _ _ _ _ (fun hc => hkt hc),
        dictGet?_dictSet_ne _ _ _ _ (fun hc => hkc hc),
        dictGet?_dictSet_ne _ _ _ _ (fun hc => hks hc)]

theorem update_task_status_missing (wfail : Bool) (now : DateTime) (st : Store)
    (tid s : String) (e : Option String) (h : storeGetDir st tid = Option.none) :
    update_task_status wfail now st tid s e = (st, Option.none) := by
  unfold update_task_status
  rw [load_task_metadata_none_of_no_dir st tid h]

/-- Executable well-formedness of a store for listing: every parseable
metadata document is a record (a dict) whose `created_at`, when present, is
a string — the shape the data model prescribes for every record the service
itself writes. -/
def storeRecordsOk (st : Store) : Bool :=
  st.all (fun e =>
    match e.2.metadataFile with
    | some (.ok j) => sortKeyOk (jsonToPy j)
    | _ => true)

theorem listCollect_none (st : Store) :
    listCollect st Option.none = st.filterMap (fun e =>
      match e.2.metadataFile with
      | some (.ok j) => some (jsonToPy j)
      | _ => Option.none) := by
  unfold listCollect
  congr 1

theorem listCollect_some (st : Store) (s : String) (hs : ¬s = "") :
    listCollect st (some s) = (st.filterMap (fun e =>
      match e.2.metadataFile with
      | some (.ok j) => some (jsonToPy j)
      | _ => Option.none)).filter (fun m =>
        match m with
        | .dict kvs =>
          match dictGet? kvs "status" with
          | some (.str s2) => decide (s2 = s)
          | _ => false
        | _ => false) := by
  unfold listCollect
  rw [List.filter_filterMap]
  congr 1
  funext e
  obtain ⟨tid, d⟩ := e
  cases hf : d.metadataFile with
  | none => simp [hf, Option.filter]
  | some fc =>
    cases fc with
    | corrupt => simp [hf, Option.filter]
    | ok j =>
      cases hm : jsonToPy j with
      | dict kvs =>
        cases hg : dictGet? kvs "status" with
        | none => simp [hf, hs, hm, hg, Option.filter]
        | some v =>
          cases v with
          | str s2 =>
            by_cases hv : s2 = s <;> simp [hf, hs, hm, hg, hv, Option.filter]
          | none => simp [hf, hs, hm, hg, Option.filter]
          | bool b => simp [hf, hs, hm, hg, Option.filter]
          | int n => simp [hf, hs, hm, hg, Option.filter]
          | float q => simp [hf, hs, hm, hg, Option.filter]
          | dt d2 => simp [hf, hs, hm, hg, Option.filter]
          | list xs => simp [hf, hs, hm, hg, Option.filter]
          | dict kvs2 => simp [hf, hs, hm, hg, Option.filter]
      | none => simp [hf, hs, hm, Option.filter]
      | bool b => simp [hf, hs, hm, Option.filter]
      | int n => simp [hf, hs, hm, Option.filter]
      | float q => simp [hf, hs, hm, Option.filter]
      | str s2 => simp [hf, hs, hm, Option.filter]
      | dt d2 => simp [hf, hs, hm, Option.filter]
      | list xs => simp [hf, hs, hm, Option.filter]

theorem listCollect_mem (st : Store) (status : Option String) (m : PyVal)
    (hm : m ∈ listCollect st status) :
    ∃ e ∈ st, ∃ j, e.2.metadataFile = some (.ok j) ∧ m = jsonToPy j := by
  unfold listCollect at hm
  rw [List.mem_filterMap] at hm
  obtain ⟨e, he, hfe⟩ := hm
  obtain ⟨tid, d⟩ := e
  cases hf : d.metadataFile with
  | none =>
    simp [hf] at hfe
  | some fc =>
    cases fc with
    | corrupt => simp [hf] at hfe
    | ok j =>
      refine ⟨(tid, d), he, j, hf, ?_⟩
      cases status with
      | none =>
        simp [hf] at hfe
        exact hfe.symm
      | some s =>
        by_cases hs : s = ""
        · simp [hf, hs] at hfe
          exact hfe.symm
        · cases hmj : jsonToPy j with
          | dict kvs =>
            cases hg : dictGet? kvs "status" with
            | some v =>
              cases v with
              | str s2 =>
                by_cases hv : s2 = s
                · simp [hf, hs, hmj, hg, hv] at hfe
                  exact hfe.symm
                · simp [hf, hs, hmj, hg, hv] at hfe
              | none => simp [hf, hs, hmj, hg] at hfe
              | bool b => simp [hf, hs, hmj, hg] at hfe
              | int n => simp [hf, hs, hmj, hg] at hfe
              | float q => simp [hf, hs, hmj, hg] at hfe
              | dt d2 => simp [hf, hs, hmj, hg] at hfe
              | list xs => simp [hf, hs, hmj, hg] at hfe
              | dict kvs2 => simp [hf, hs, hmj, hg] at hfe
            | none => simp [hf, hs, hmj, hg] at hfe
          | none => simp [hf, hs, hmj] at hfe
          | bool b => simp [hf, hs, hmj] at hfe
          | int n => simp [hf, hs, hmj] at hfe
          | float q => simp [hf, hs, hmj] at hfe
          | str s2 => simp [hf, hs, hmj] at hfe
          | dt d2 => simp [hf, hs, hmj] at hfe
          | list xs => simp [hf, hs, hmj] at hfe

theorem listCollect_all_ok (st : Store) (status : Option String)
    (hst : storeRecordsOk st = true) :
    (listCollect st status).all sortKeyOk = true := by
  rw [List.all_eq_true]
  intro m hm
  obtain ⟨e, he, j, hj, rfl⟩ := listCollect_mem st status m hm
  have hok := List.all_eq_true.mp hst e he
  rw [hj] at hok
  exact hok

theorem list_tasks_eq (st : Store) (status : Option String) (limit offset : Nat) :
    list_tasks st status limit offset =
      if (listCollect st status).all sortKeyOk then
        ((sortByCreatedAtDesc (listCollect st status)).drop offset).take limit
      else [] := rfl

theorem list_tasks_spec_none_eq (st : Store) (limit offset : Nat) :
    list_tasks_spec st Option.none limit offset =
      ((sortByCreatedAtDesc (st.filterMap (fun e =>
        match e.2.metadataFile with
        | some (.ok j) => some (jsonToPy j)
        | _ => Option.none))).drop offset).take limit := rfl

theorem list_tasks_spec_some_eq (st : Store) (s : String) (limit offset : Nat) :
    list_tasks_spec st (some s) limit offset =
      ((sortByCreatedAtDesc ((st.filterMap (fun e =>
        match e.2.metadataFile with
        | some (.ok j) => some (jsonToPy j)
        | _ => Option.none)).filter (fun m =>
          match m with
          | .dict kvs =>
            match dictGet? kvs "status" with
            | some (.str s2) => decide (s2 = s)
            | _ => false
          | _ => false))).drop offset).take limit := rfl

/-- C5 (amended): when the status filter is absent or a non-empty status
string, and every parseable record is a dict whose `created_at` (if
present) is a string — the shape of every record the service writes —
`list_tasks` returns exactly the parseable records matching the filter,
sorted by `created_at` descending, with `offset` skipped and at most
`limit` returned.  (An empty-string filter is treated as "no filter"
because `if status` tests Python truthiness, which the counterexample
exhibits.) -/
theorem list_tasks_eq_spec (st : Store) (status : Option String) (limit offset : Nat)
    (hst : storeRecordsOk st = true)
    (hs : status = Option.none ∨ ∃ s, status = some s ∧ s ≠ "") :
    list_tasks st status limit offset = list_tasks_spec st status limit offset := by
  have hall := listCollect_all_ok st status hst
  rw [list_tasks_eq, hall, if_pos rfl]
  rcases hs with rfl | ⟨s, rfl, hsne⟩
  · rw [list_tasks_spec_none_eq, listCollect_none]
  · rw [list_tasks_spec_some_eq, listCollect_some st s hsne]

/-- C5 witness: a concrete well-formed one-task store on which the code and
the specification description agree for the filter `"completed"`. -/
theorem list_tasks_eq_spec_witness :
    storeRecordsOk [("t", TaskDir.mk (some (.ok (.obj [("status", JVal.str "pending"),
        ("created_at", JVal.str "2024-01-01T00:00:00")]))) Option.none)] = true ∧
      list_tasks [("t", TaskDir.mk (some (.ok (.obj [("status", JVal.str "pending"),
        ("created_at", JVal.str "2024-01-01T00:00:00")]))) Option.none)]
          (some "completed") 50 0 =
        list_tasks_spec [("t", TaskDir.mk (some (.ok (.obj [("status", JVal.str "pending"),
        ("created_at", JVal.str "2024-01-01T00:00:00")]))) Option.none)]
          (some "completed") 50 0 :=
  ⟨rfl, list_tasks_eq_spec _ (some "completed") 50 0 rfl
    (Or.inr ⟨"completed", rfl, by decide⟩)⟩

/-- C5 counterexample: with the empty-string filter, the code's Python
truthiness test `if status` treats the filter as absent and returns the
record whose status is `"pending"`, while the claim's description returns
no record (no status equals `""`); so the claim does not hold for every
status filter. -/
theorem list_tasks_empty_filter_counterexample :
    list_tasks [("t", TaskDir.mk (some (.ok (.obj [("status", JVal.str "pending"),
        ("created_at", JVal.str "2024-01-01T00:00:00")]))) Option.none)] (some "") 50 0 ≠
      list_tasks_spec [("t", TaskDir.mk (some (.ok (.obj [("status", JVal.str "pending"),
        ("created_at", JVal.str "2024-01-01T00:00:00")]))) Option.none)] (some "") 50 0 := by
  intro hcon
  rw [show list_tasks [("t", TaskDir.mk (some (.ok (.obj [("status", JVal.str "pending"),
        ("created_at", JVal.str "2024-01-01T00:00:00")]))) Option.none)] (some "") 50 0 =
      [PyVal.dict [("status", PyVal.str "pending"),
        ("created_at", PyVal.str "2024-01-01T00:00:00")]] from rfl,
    show list_tasks_spec [("t", TaskDir.mk (some (.ok (.obj [("status", JVal.str "pending"),
        ("created_at", JVal.str "2024-01-01T00:00:00")]))) Option.none)] (some "") 50 0 =
      [] from rfl] at hcon
  cases hcon

/-- C6: a task directory whose metadata document exists but fails to parse
is skipped (with a warning) by `list_tasks`: inserting such a directory at
any position in the store leaves the returned listing unchanged, so one
corrupt record never aborts or empties the listing. -/
theorem list_tasks_skips_corrupt (st1 st2 : Store) (tid : String) (d : TaskDir)
    (hd : d.metadataFile = some .corrupt) (status : Option String)
    (limit offset : Nat) :
    list_tasks (st1 ++ (tid, d) :: st2) status limit offset =
      list_tasks (st1 ++ st2) status limit offset := by
  have hcol : listCollect (st1 ++ (tid, d) :: st2) status =
      listCollect (st1 ++ st2) status := by
    unfold listCollect
    rw [List.filterMap_append, List.filterMap_append, List.filterMap_cons]
    simp [hd]
  rw [list_tasks_eq, list_tasks_eq, hcol]

/-- C6 witness: inserting a corrupt task between two valid tasks leaves the
listing exactly as without it. -/
theorem list_tasks_skips_corrupt_witness :
    (TaskDir.mk (some FileContent.corrupt) Option.none).metadataFile =
        some FileContent.corrupt ∧
      list_tasks ([("a", TaskDir.mk (some (.ok (.obj [("status", JVal.str "completed"),
          ("created_at", JVal.str "2024-01-02T00:00:00")]))) Option.none)] ++
        ("bad", TaskDir.mk (some FileContent.corrupt) Option.none) ::
        [("c", TaskDir.mk (some (.ok (.obj [("status", JVal.str "completed"),
          ("created_at", JVal.str "2024-01-01T00:00:00")]))) Option.none)])
        Option.none 50 0 =
      list_tasks ([("a", TaskDir.mk (some (.ok (.obj [("status", JVal.str "completed"),
          ("created_at", JVal.str "2024-01-02T00:00:00")]))) Option.none)] ++
        [("c", TaskDir.mk (some (.ok (.obj [("status", JVal.str "completed"),
          ("created_at", JVal.str "2024-01-01T00:00:00")]))) Option.none)])
        Option.none 50 0 :=
  ⟨rfl, list_tasks_skips_corrupt _ _ "bad" _ rfl Option.none 50 0⟩

/-- Input of the C1 counterexample: a record whose `created_at` holds a
`datetime` object. -/
def c1Dt : DateTime := ⟨2024, 1, 2, 3, 4, 5, 0⟩

/-- The C1 counterexample metadata record. -/
def c1Meta : PyDict :=
  [("task_id", .str "t"), ("created_at", .dt c1Dt), ("status", .str "pending")]

/-- C1 counterexample: save a record whose `created_at` is a datetime, load
it back — the loaded record holds the ISO string, not a datetime:
`load_task_metadata` performs no conversion back, so save-then-load is not
the identity on the record as passed in. -/
theorem save_load_metadata_no_conversion_back :
    load_task_metadata (save_task_metadata false [] "t" c1Meta).2.1 "t" ≠
      some (.dict c1Meta) := by
  intro hcon
  have hload : load_task_metadata (save_task_metadata false [] "t" c1Meta).2.1 "t" =
      some (.dict (normalizeMetadata "t" c1Meta)) := rfl
  rw [hload] at hcon
  have hfields := congrArg (fun o =>
    match o with
    | some (PyVal.dict kvs) => dictGet? kvs "created_at"
    | _ => Option.none) hcon
  have hl : dictGet? (normalizeMetadata "t" c1Meta) "created_at" =
      some (.str c1Dt.isoformat) := rfl
  have hr : dictGet? c1Meta "created_at" = some (.dt c1Dt) := rfl
  simp only [hl, hr] at hfields
  cases hfields

/-- C1 (amended): `save_task_metadata` then `load_task_metadata` returns a
record equal in every field to the record as saved — the caller's record
after save's in-place normalization (`task_id` overwritten with the key,
datetime timestamps converted to canonical ISO strings); the timestamps
stay ISO strings on load (no conversion back).  When the record is already
normalized, save-then-load is the identity. -/
theorem save_then_load_metadata_roundtrip (st : Store) (tid : String) (m : PyDict)
    (hsafe : (pyDictToJson (normalizeMetadata tid m)).isSome) :
    (save_task_metadata false st tid m).2.2 = Option.none ∧
      load_task_metadata (save_task_metadata false st tid m).2.1 tid =
        some (.dict (save_task_metadata false st tid m).1) ∧
      (normalizeMetadata tid m = m →
        load_task_metadata (save_task_metadata false st tid m).2.1 tid =
          some (.dict m)) := by
  obtain ⟨js, hjs⟩ := Option.isSome_iff_exists.mp hsafe
  have h := load_after_save_metadata st tid m js hjs
  have hfst : (save_task_metadata false st tid m).1 = normalizeMetadata tid m := by
    rw [save_metadata_false_eq st tid m js hjs]
  refine ⟨h.1, ?_, ?_⟩
  · rw [hfst]
    exact h.2
  · intro hnorm
    rw [h.2, hnorm]

/-- An already-normalized metadata record for the C1 witness. -/
def c1NormMeta : PyDict :=
  [("task_id", .str "t"), ("status", .str "pending"),
   ("created_at", .str "2024-01-01T00:00:00")]

/-- C1 witness: the round trip evaluated on a concrete normalized record. -/
theorem save_then_load_metadata_roundtrip_witness :
    (pyDictToJson (normalizeMetadata "t" c1NormMeta)).isSome = true ∧
      normalizeMetadata "t" c1NormMeta = c1NormMeta ∧
      load_task_metadata (save_task_metadata false [] "t" c1NormMeta).2.1 "t" =
        some (.dict c1NormMeta) :=
  ⟨rfl, rfl, (save_then_load_metadata_roundtrip [] "t" c1NormMeta (by rfl)).2.2 rfl⟩

/-- The C2 counterexample store: the metadata document exists but cannot be
decoded. -/
def c2Store : Store := [("t", ⟨some .corrupt, Option.none⟩)]

/-- C2 counterexample: for an existing but unparseable metadata document,
`load_task_metadata` returns `None` — exactly the result it returns for a
task that was never created — so the claimed distinct decode-error result
does not exist and a caller cannot distinguish the two cases. -/
theorem load_corrupt_indistinguishable_from_missing :
    metadataFileExists c2Store "t" = true ∧
      load_task_metadata c2Store "t" = Option.none ∧
      load_task_metadata ([] : Store) "t" = Option.none ∧
      load_task_metadata c2Store "t" = load_task_metadata ([] : Store) "t" :=
  ⟨rfl, rfl, rfl, rfl⟩

/-- C2 (amended): `load_task_metadata` returns the explicit not-found
result `None` when no document exists, and the same `None` when the
document exists but fails to decode (the decode error is only logged), so
the return value does not distinguish "never created" from "corrupted". -/
theorem load_task_metadata_none_on_missing_or_corrupt (st : Store) (tid : String)
    (d : TaskDir) :
    (storeGetDir st tid = Option.none → load_task_metadata st tid = Option.none) ∧
      (storeGetDir st tid = some d → d.metadataFile = Option.none →
        load_task_metadata st tid = Option.none) ∧
      (storeGetDir st tid = some d → d.metadataFile = some .corrupt →
        load_task_metadata st tid = Option.none) := by
  refine ⟨fun h => load_task_metadata_none_of_no_dir st tid h, ?_, ?_⟩
  · intro h hf
    rw [load_task_metadata_of_dir st tid d h, hf]
  · intro h hf
    rw [load_task_metadata_of_dir st tid d h, hf]

/-- C2 witness: the amended behavior evaluated on the corrupt store and on
the empty store. -/
theorem load_task_metadata_none_on_missing_or_corrupt_witness :
    (storeGetDir c2Store "t" = some (⟨some .corrupt, Option.none⟩ : TaskDir) ∧
        load_task_metadata c2Store "t" = Option.none) ∧
      (storeGetDir ([] : Store) "t" = Option.none ∧
        load_task_metadata ([] : Store) "t" = Option.none) :=
  ⟨⟨rfl, (load_task_metadata_none_on_missing_or_corrupt c2Store "t"
      ⟨some .corrupt, Option.none⟩).2.2 rfl rfl⟩,
   ⟨rfl, (load_task_metadata_none_on_missing_or_corrupt ([] : Store) "t"
      ⟨some .corrupt, Option.none⟩).1 rfl⟩⟩

/-- The reader-visible store states during the document write of
`save_task_metadata` (source lines 122-123): `open(path, "w")` first
truncates the file in place, leaving an unparseable document, and
`json.dump` then writes the full serialized record.  A concurrent reader
can run between the two steps. -/
def save_metadata_write_states (st : Store) (tid : String) (m : PyDict) : List Store :=
  [setMetadataFile (mkdirTask st tid) tid .corrupt,
   (save_task_metadata false st tid m).2.1]

/-- The atomicity property claimed for the write: at every intermediate
point a concurrent reader observes either the pre-write document state or
the completed new document. -/
def AtomicWrtReaders (st : Store) (tid : String) (m : PyDict) : Prop :=
  ∀ mid ∈ save_metadata_write_states st tid m,
    load_task_metadata mid tid = load_task_metadata st tid ∨
      load_task_metadata mid tid =
        load_task_metadata (save_task_metadata false st tid m).2.1 tid

/-- The C3 counterexample store: one task with a parseable document that a
concurrent save is about to overwrite. -/
def c3Store : Store :=
  [("t", ⟨some (.ok (.obj [("status", JVal.str "pending")])), Option.none⟩)]

/-- The record being written in the C3 counterexample. -/
def c3Meta : PyDict := [("status", .str "done")]

/-- C3 counterexample: the write is performed in place (truncate, then
write), so the reader interleaved between the two steps observes neither
the old nor the new document (the file exists but no longer parses) — the
write is not atomic with respect to readers. -/
theorem save_metadata_not_atomic : ¬AtomicWrtReaders c3Store "t" c3Meta := by
  intro h
  have hmid := h (setMetadataFile (mkdirTask c3Store "t") "t" .corrupt)
    (by simp [save_metadata_write_states])
  have h1 : load_task_metadata
      (setMetadataFile (mkdirTask c3Store "t") "t" .corrupt) "t" = Option.none := rfl
  have h2 : load_task_metadata c3Store "t" =
      some (.dict [("status", PyVal.str "pending")]) := rfl
  have h3 : load_task_metadata (save_task_metadata false c3Store "t" c3Meta).2.1 "t" =
      some (.dict (normalizeMetadata "t" c3Meta)) := rfl
  rcases hmid with hmid | hmid
  · rw [h1, h2] at hmid
    cases hmid
  · rw [h1, h3] at hmid
    cases hmid

/-- C3 (amended): `save_task_metadata` writes the document in place rather
than to a temporary path: during the write the reader-visible intermediate
state has an existing but unparseable (truncated) document, and only the
final state of the write sequence carries the complete new record. -/
theorem save_metadata_write_in_place (st : Store) (tid : String) (m : PyDict)
    (js : List (String × JVal))
    (hjs : pyDictToJson (normalizeMetadata tid m) = some js) :
    (save_metadata_write_states st tid m).head? =
        some (setMetadataFile (mkdirTask st tid) tid .corrupt) ∧
      load_task_metadata (setMetadataFile (mkdirTask st tid) tid .corrupt) tid =
        Option.none ∧
      metadataFileExists (setMetadataFile (mkdirTask st tid) tid .corrupt) tid = true ∧
      (save_metadata_write_states st tid m).getLast? =
        some (save_task_metadata false st tid m).2.1 ∧
      load_task_metadata (save_task_metadata false st tid m).2.1 tid =
        some (.dict (normalizeMetadata tid m)) := by
  obtain ⟨d, hd⟩ := storeGetDir_mkdirTask st tid
  refine ⟨rfl, ?_, ?_, rfl, (load_after_save_metadata st tid m js hjs).2⟩
  · simp only [setMetadataFile, hd]
    rw [load_task_metadata_of_dir _ _ _ (storeGetDir_storeSetDir_of_some _ _ _ _ hd)]
  · simp only [setMetadataFile, hd]
    unfold metadataFileExists
    rw [storeGetDir_storeSetDir_of_some _ _ _ _ hd]
    rfl

/-- C3 witness: the in-place write behavior evaluated on the counterexample
store. -/
theorem save_metadata_write_in_place_witness :
    pyDictToJson (normalizeMetadata "t" c3Meta) =
        some [("status", JVal.str "done"), ("task_id", JVal.str "t")] ∧
      load_task_metadata (setMetadataFile (mkdirTask c3Store "t") "t" .corrupt) "t" =
        Option.none ∧
      metadataFileExists (setMetadataFile (mkdirTask c3Store "t") "t" .corrupt) "t" =
        true ∧
      load_task_metadata (save_task_metadata false c3Store "t" c3Meta).2.1 "t" =
        some (.dict (normalizeMetadata "t" c3Meta)) :=
  ⟨rfl,
   (save_metadata_write_in_place c3Store "t" c3Meta
      [("status", JVal.str "done"), ("task_id", JVal.str "t")] rfl).2.1,
   (save_metadata_write_in_place c3Store "t" c3Meta
      [("status", JVal.str "done"), ("task_id", JVal.str "t")] rfl).2.2.1,
   (save_metadata_write_in_place c3Store "t" c3Meta
      [("status", JVal.str "done"), ("task_id", JVal.str "t")] rfl).2.2.2.2⟩

/-- C4: for every storyboard whose datetime fields are valid `datetime`
values, `save_storyboard` then `load_storyboard` returns a storyboard equal
field-for-field to the one saved — in particular every absent optional
field (including `content_metadata = None`) loads back as explicit absence,
since the equality is on the whole record. -/
theorem save_load_storyboard_roundtrip (st : Store) (tid : String) (s : Storyboard)
    (h : s.ValidTs) :
    (save_storyboard false st tid s).2 = Option.none ∧
      load_storyboard (save_storyboard false st tid s).1 tid = some s := by
  obtain ⟨herr, hload⟩ := load_storyboard_after_save st tid s
  exact ⟨herr, by rw [hload, dict_to_storyboard_storyboard_to_dict s h]⟩

/-- A fully populated config for the C4 witness. -/
def cfgW : StoryboardConfig :=
  ⟨some "t", 5, 5, 20, 30, 60, 30, "local", Option.none, Option.none, some 1,
   Option.none, 1024, 1024, Option.none, "1080x1920/default.html",
   some [("x", JVal.int 2)]⟩

/-- A frame with mixed set/absent optionals and a microsecond-precision
timestamp for the C4 witness. -/
def frameW : StoryboardFrame :=
  ⟨1, "hello", "prompt", some "frames/01_audio.mp3", some "image",
   some "frames/01_image.png", Option.none, some "frames/01_composed.png",
   Option.none, 2, some ⟨2024, 5, 6, 7, 8, 9, 123456⟩⟩

/-- A storyboard with one frame and populated content metadata for the C4
witness. -/
def sbW : Storyboard :=
  ⟨"Title", cfgW, [frameW],
   some ⟨"BookT", some "Auth", Option.none, Option.none, Option.none, some 1999,
     Option.none⟩,
   Option.none, 2, some ⟨2024, 1, 1, 0, 0, 0, 0⟩, Option.none⟩

/-- A storyboard with no frames and every optional field absent for the C4
witness. -/
def sbW2 : Storyboard :=
  ⟨"T2", cfgW, [], Option.none, Option.none, 0, Option.none, Option.none⟩

/-- C4 witness: the round trip evaluated on a populated storyboard and on
one with every optional field absent (`content_metadata = None` loads back
as `None`). -/
theorem save_load_storyboard_roundtrip_witness :
    sbW.ValidTs ∧
      load_storyboard (save_storyboard false [] "t" sbW).1 "t" = some sbW ∧
      sbW2.ValidTs ∧
      load_storyboard (save_storyboard false [] "t" sbW2).1 "t" = some sbW2 :=
  ⟨by decide, (save_load_storyboard_roundtrip [] "t" sbW (by decide)).2,
   by decide, (save_load_storyboard_roundtrip [] "t" sbW2 (by decide)).2⟩

/-- C7: updating an existing task (non-empty parsed record) to a terminal
status succeeds without raising, stores the status, and sets
`completed_at` to the non-empty ISO timestamp of the call; a second call
with the same terminal status leaves the record valid and uncorrupted —
still loadable, with the status and a fresh non-empty `completed_at`, and
every other field preserved.  For a task that does not exist the call is a
no-op that returns without raising and leaves the store unchanged. -/
theorem update_task_status_terminal_idempotent_and_missing :
    (∀ (now now2 : DateTime) (st : Store) (tid s : String) (kvs : PyDict),
      load_task_metadata st tid = some (.dict kvs) → kvs ≠ [] →
      (s = "completed" ∨ s = "failed" ∨ s = "cancelled") →
      ∃ st1 kvs1,
        update_task_status false now st tid s Option.none = (st1, Option.none) ∧
        load_task_metadata st1 tid = some (.dict kvs1) ∧
        dictGet? kvs1 "status" = some (.str s) ∧
        dictGet? kvs1 "completed_at" = some (.str now.isoformat) ∧
        now.isoformat ≠ "" ∧
        ∃ st2 kvs2,
          update_task_status false now2 st1 tid s Option.none = (st2, Option.none) ∧
          load_task_metadata st2 tid = some (.dict kvs2) ∧
          dictGet? kvs2 "status" = some (.str s) ∧
          dictGet? kvs2 "completed_at" = some (.str now2.isoformat) ∧
          (∀ k, k ≠ "status" → k ≠ "completed_at" → k ≠ "task_id" →
            dictGet? kvs2 k = dictGet? kvs1 k)) ∧
    (∀ (wfail : Bool) (now : DateTime) (st : Store) (tid s : String)
      (e : Option String), storeGetDir st tid = Option.none →
      update_task_status wfail now st tid s e = (st, Option.none)) := by
  constructor
  · intro now now2 st tid s kvs hload hne hterm
    obtain ⟨herr1, hload1, hst1, hca1, htid1, hnn1, hpres1⟩ :=
      update_terminal_props now st tid s kvs hload hne hterm
    refine ⟨(update_task_status false now st tid s Option.none).1, _,
      Prod.ext rfl herr1, hload1, hst1, hca1, isoformat_ne_empty now, ?_⟩
    obtain ⟨herr2, hload2, hst2, hca2, htid2, hnn2, hpres2⟩ :=
      update_terminal_props now2 (update_task_status false now st tid s Option.none).1
        tid s _ hload1 hnn1 hterm
    exact ⟨(update_task_status false now2
        (update_task_status false now st tid s Option.none).1 tid s Option.none).1, _,
      Prod.ext rfl herr2, hload2, hst2, hca2, hpres2⟩
  · intro wfail now st tid s e h
    exact update_task_status_missing wfail now st tid s e h

/-- The C7 witness store: one running task with a valid record. -/
def c7Store : Store :=
  [("t", ⟨some (.ok (.obj [("task_id", JVal.str "t"), ("status", JVal.str "running"),
      ("created_at", JVal.str "2024-01-01T00:00:00")])), Option.none⟩)]

/-- The parsed record of the C7 witness store. -/
def c7Kvs : PyDict :=
  [("task_id", .str "t"), ("status", .str "running"),
   ("created_at", .str "2024-01-01T00:00:00")]

/-- C7 witness: both parts of the theorem evaluated at concrete inputs. -/
theorem update_task_status_terminal_witness :
    (∃ st1 kvs1,
        update_task_status false ⟨2024, 1, 2, 3, 4, 5, 0⟩ c7Store "t" "completed"
          Option.none = (st1, Option.none) ∧
        load_task_metadata st1 "t" = some (.dict kvs1) ∧
        dictGet? kvs1 "status" = some (.str "completed") ∧
        dictGet? kvs1 "completed_at" =
          some (.str (DateTime.isoformat ⟨2024, 1, 2, 3, 4, 5, 0⟩)) ∧
        DateTime.isoformat ⟨2024, 1, 2, 3, 4, 5, 0⟩ ≠ "" ∧
        ∃ st2 kvs2,
          update_task_status false ⟨2024, 1, 2, 3, 4, 6, 0⟩ st1 "t" "completed"
            Option.none = (st2, Option.none) ∧
          load_task_metadata st2 "t" = some (.dict kvs2) ∧
          dictGet? kvs2 "status" = some (.str "completed") ∧
          dictGet? kvs2 "completed_at" =
            some (.str (DateTime.isoformat ⟨2024, 1, 2, 3, 4, 6, 0⟩)) ∧
          (∀ k, k ≠ "status" → k ≠ "completed_at" → k ≠ "task_id" →
            dictGet? kvs2 k = dictGet? kvs1 k)) ∧
      update_task_status false ⟨2024, 1, 2, 3, 4, 5, 0⟩ ([] : Store) "x" "completed"
        Option.none = (([] : Store), Option.none) :=
  ⟨update_task_status_terminal_idempotent_and_missing.1 ⟨2024, 1, 2, 3, 4, 5, 0⟩
      ⟨2024, 1, 2, 3, 4, 6, 0⟩ c7Store "t" "completed" c7Kvs rfl (by simp [c7Kvs])
      (Or.inl rfl),
   update_task_status_terminal_idempotent_and_missing.2 false ⟨2024, 1, 2, 3, 4, 5, 0⟩
      ([] : Store) "x" "completed" Option.none rfl⟩

/-- The C8 counterexample store: one running task, whose status update is
about to hit an injected filesystem write failure. -/
def c8Store : Store :=
  [("t", ⟨some (.ok (.obj [("status", JVal.str "running")])), Option.none⟩)]

/-- C8 counterexample: the same injected write failure that
`save_task_metadata` raises to its caller is caught and only logged inside
`update_task_status`, which returns without error — so the claim that
`update_task_status` strictly propagates write failures is false. -/
theorem update_task_status_swallows_write_failure :
    (save_task_metadata true c8Store "t" [("status", PyVal.str "completed")]).2.2 =
        some .ioError ∧
      (update_task_status true ⟨2024, 1, 1, 0, 0, 0, 0⟩ c8Store "t" "completed"
          Option.none).2 = Option.none :=
  ⟨rfl, rfl⟩

/-- C8 (amended): `save_task_metadata`, `save_storyboard` and `delete_task`
raise an underlying filesystem failure to the caller (delete also when the
removal was only partial), but `update_task_status` catches every
exception and merely logs it: its error result is always `none`. -/
theorem write_delete_error_propagation :
    (∀ (st : Store) (tid : String) (m : PyDict),
      (save_task_metadata true st tid m).2.2 = some .ioError) ∧
    (∀ (st : Store) (tid : String) (s : Storyboard),
      (save_storyboard true st tid s).2 = some .ioError) ∧
    (∀ (st : Store) (tid : String) (d : TaskDir), storeGetDir st tid = some d →
      (delete_task true st tid).2 = some .ioError) ∧
    (∀ (wfail : Bool) (now : DateTime) (st : Store) (tid s : String)
      (e : Option String), (update_task_status wfail now st tid s e).2 = Option.none) := by
  refine ⟨fun st tid m => rfl, fun st tid s => rfl, ?_, ?_⟩
  · intro st tid d h
    unfold delete_task
    rw [h]
    rfl
  · intro wfail now st tid s e
    unfold update_task_status
    split
    · rfl
    · split
      · rfl
      · split <;> rfl

/-- A minimal storyboard for the C8 witness. -/
def sbEmpty : Storyboard :=
  ⟨"", cfgW, [], Option.none, Option.none, 0, Option.none, Option.none⟩

/-- C8 witness: each branch of the amended propagation behavior evaluated
at concrete inputs. -/
theorem write_delete_error_propagation_witness :
    (save_task_metadata true c8Store "t" [("status", PyVal.str "done")]).2.2 =
        some .ioError ∧
      (save_storyboard true c8Store "t" sbEmpty).2 = some .ioError ∧
      (delete_task true c8Store "t").2 = some .ioError ∧
      (update_task_status false ⟨2024, 1, 1, 0, 0, 0, 0⟩ c8Store "t" "completed"
          Option.none).2 = Option.none :=
  ⟨write_delete_error_propagation.1 c8Store "t" [("status", PyVal.str "done")],
   write_delete_error_propagation.2.1 c8Store "t" sbEmpty,
   write_delete_error_propagation.2.2.1 c8Store "t"
     ⟨some (.ok (.obj [("status", JVal.str "running")])), Option.none⟩ rfl,
   write_delete_error_propagation.2.2.2 false ⟨2024, 1, 1, 0, 0, 0, 0⟩ c8Store "t"
     "completed" Option.none⟩

/-- The C9 counterexample store: an on-disk document whose `task_id` field
disagrees with the directory name used as the storage key. -/
def c9Store : Store :=
  [("a", ⟨some (.ok (.obj [("task_id", JVal.str "b")])), Option.none⟩)]

/-- C9 counterexample: `load_task_metadata` returns the on-disk record
unchanged — the returned `task_id` is `"b"`, not the requested key `"a"` —
so the loader does trust a mismatched `task_id` from disk. -/
theorem load_task_metadata_trusts_disk_task_id :
    load_task_metadata c9Store "a" = some (.dict [("task_id", PyVal.str "b")]) ∧
      ("b" : String) ≠ "a" :=
  ⟨rfl, by decide⟩

/-- C9 (amended): `save_task_metadata` overwrites the record's `task_id`
with the storage key before persisting — both the caller-visible mutated
record and any record loaded back from a document it wrote carry the key —
but `load_task_metadata` itself performs no such normalization, so only
documents written through save are guaranteed to satisfy the invariant. -/
theorem save_normalizes_task_id (st : Store) (tid : String) (m : PyDict)
    (hsafe : (pyDictToJson (normalizeMetadata tid m)).isSome) :
    dictGet? (save_task_metadata false st tid m).1 "task_id" = some (.str tid) ∧
      (∀ kvs, load_task_metadata (save_task_metadata false st tid m).2.1 tid =
        some (.dict kvs) → dictGet? kvs "task_id" = some (.str tid)) := by
  obtain ⟨js, hjs⟩ := Option.isSome_iff_exists.mp hsafe
  have hfst : (save_task_metadata false st tid m).1 = normalizeMetadata tid m := by
    rw [save_metadata_false_eq st tid m js hjs]
  have hget : dictGet? (normalizeMetadata tid m) "task_id" = some (.str tid) := by
    unfold normalizeMetadata
    rw [dictGet?_convertTsField_ne _ _ _ (by decide),
      dictGet?_convertTsField_ne _ _ _ (by decide),
      dictGet?_dictSet_self]
  refine ⟨by rw [hfst]; exact hget, ?_⟩
  intro kvs hkvs
  rw [(load_after_save_metadata st tid m js hjs).2] at hkvs
  rw [← PyVal.dict.inj (Option.some.inj hkvs)]
  exact hget

/-- C9 witness: saving under key `"a"` a record whose `task_id` claims
`"b"` stores and returns `"a"`. -/
theorem save_normalizes_task_id_witness :
    (pyDictToJson (normalizeMetadata "a" [("task_id", PyVal.str "b")])).isSome = true ∧
      dictGet? (save_task_metadata false [] "a" [("task_id", PyVal.str "b")]).1
        "task_id" = some (.str "a") ∧
      dictGet? (normalizeMetadata "a" [("task_id", PyVal.str "b")]) "task_id" =
        some (.str "a") :=
  ⟨rfl,
   (save_normalizes_task_id [] "a" [("task_id", PyVal.str "b")] (by rfl)).1,
   (save_normalizes_task_id [] "a" [("task_id", PyVal.str "b")] (by rfl)).2
     (normalizeMetadata "a" [("task_id", PyVal.str "b")]) rfl⟩

/-- C10: `save_task_metadata` mutates the caller's metadata dict in place
(modeled by returning the dict's final value as the first component): for
every input dict and every outcome of the write, after the call the dict is
exactly the normalized record — its `task_id` key holds the `task_id`
argument, and any datetime previously held under `created_at` or
`completed_at` has been replaced by its ISO string — so a save never
leaves the caller's copy unchanged when normalization changes it. -/
theorem save_task_metadata_mutates_caller (wfail : Bool) (st : Store) (tid : String)
    (m : PyDict) :
    (save_task_metadata wfail st tid m).1 = normalizeMetadata tid m ∧
      dictGet? (save_task_metadata wfail st tid m).1 "task_id" = some (.str tid) ∧
      (∀ d, dictGet? m "created_at" = some (.dt d) →
        dictGet? (save_task_metadata wfail st tid m).1 "created_at" =
          some (.str d.isoformat)) ∧
      (∀ d, dictGet? m "completed_at" = some (.dt d) →
        dictGet? (save_task_metadata wfail st tid m).1 "completed_at" =
          some (.str d.isoformat)) := by
  have h1 : (save_task_metadata wfail st tid m).1 = normalizeMetadata tid m := by
    unfold save_task_metadata
    cases wfail with
    | true => rfl
    | false =>
      cases h : pyDictToJson (normalizeMetadata tid m) <;> simp [h]
  refine ⟨h1, ?_, ?_, ?_⟩
  · rw [h1]
    unfold normalizeMetadata
    rw [dictGet?_convertTsField_ne _ _ _ (by decide),
      dictGet?_convertTsField_ne _ _ _ (by decide),
      dictGet?_dictSet_self]
  · intro d hd
    rw [h1]
    unfold normalizeMetadata
    rw [dictGet?_convertTsField_ne _ _ _ (by decide),
      dictGet?_convertTsField_self,
      dictGet?_dictSet_ne _ _ _ _ (by decide), hd]
    rfl
  · intro d hd
    rw [h1]
    unfold normalizeMetadata
    rw [dictGet?_convertTsField_self,
      dictGet?_convertTsField_ne _ _ _ (by decide),
      dictGet?_dictSet_ne _ _ _ _ (by decide), hd]
    rfl

/-- C10 witness: the in-place mutation evaluated on a record holding
datetime objects in both timestamp fields and a stale `task_id`. -/
theorem save_task_metadata_mutates_caller_witness :
    dictGet? [("task_id", PyVal.str "old"),
        ("created_at", PyVal.dt ⟨2024, 1, 2, 3, 4, 5, 0⟩),
        ("completed_at", PyVal.dt ⟨2024, 1, 2, 3, 4, 6, 0⟩)] "created_at" =
      some (.dt ⟨2024, 1, 2, 3, 4, 5, 0⟩) ∧
    dictGet? (save_task_metadata false [] "t" [("task_id", PyVal.str "old"),
        ("created_at", PyVal.dt ⟨2024, 1, 2, 3, 4, 5, 0⟩),
        ("completed_at", PyVal.dt ⟨2024, 1, 2, 3, 4, 6, 0⟩)]).1 "task_id" =
      some (.str "t") ∧
    dictGet? (save_task_metadata false [] "t" [("task_id", PyVal.str "old"),
        ("created_at", PyVal.dt ⟨2024, 1, 2, 3, 4, 5, 0⟩),
        ("completed_at", PyVal.dt ⟨2024, 1, 2, 3, 4, 6, 0⟩)]).1 "created_at" =
      some (.str (DateTime.isoformat ⟨2024, 1, 2, 3, 4, 5, 0⟩)) ∧
    dictGet? (save_task_metadata false [] "t" [("task_id", PyVal.str "old"),
        ("created_at", PyVal.dt ⟨2024, 1, 2, 3, 4, 5, 0⟩),
        ("completed_at", PyVal.dt ⟨2024, 1, 2, 3, 4, 6, 0⟩)]).1 "completed_at" =
      some (.str (DateTime.isoformat ⟨2024, 1, 2, 3, 4, 6, 0⟩)) :=
  ⟨rfl,
   (save_task_metadata_mutates_caller false [] "t" _).2.1,
   (save_task_metadata_mutates_caller false [] "t" _).2.2.1 ⟨2024, 1, 2, 3, 4, 5, 0⟩ rfl,
   (save_task_metadata_mutates_caller false [] "t" _).2.2.2 ⟨2024, 1, 2, 3, 4, 6, 0⟩ rfl⟩

end PixelleVideo
